import Mathlib

/-!
# Weather tool handlers of `ep9-language-comparison/go/main.go`

A shallow embedding of the five tool handlers (`GetCurrentWeather`,
`GetForecast`, `CompareWeather`, `ConvertTemperature`, `CheckRainProbability`)
and theorems about them.

Conventions of the embedding:

* `fetchWeather` performs an HTTP request; the handlers take it as a function
  `Fetcher` from the location string to either an error message or the decoded
  document, so every handler is a pure function of what was fetched.
* A handler returns `(nil, Output{Result: s}, nil)`, `(nil, Output{}, err)`, or
  does not return because an index expression panics.  These are the three
  constructors of `Outcome`; the output structure is identified with its only
  field `Result`.
* Go's `int` is the 64-bit two's-complement integer of the usual targets
  (amd64, arm64): arithmetic on it is arithmetic on `Int` followed by `wrap64`.
  The length of a slice is an `int`, hence below `2 ^ 63`, and is not wrapped.
* `fmt.Sprintf` with `%s` and `%d` verbs is string concatenation, `%d` of an
  `int` being its decimal rendering.
* Go's `float64` is IEEE 754 binary64 with round-to-nearest-even: `F64` holds
  a sign and an exact rational magnitude, or an infinity, or a NaN, and every
  operation rounds its exact result (`F64.round`).  The expressions of
  `ConvertTemperature` never multiply and then add, so no fused operation
  applies.
-/

set_option maxRecDepth 8000

namespace WeatherMcp

/-! ## Upstream document (`WeatherData`) -/

/-- Element of a `weatherDesc` array. -/
structure DescEntry where
  Value : String
  deriving DecidableEq

/-- Element of the `current_condition` array. -/
structure CurrentEntry where
  TempC : String
  TempF : String
  FeelsLikeC : String
  Humidity : String
  WindspeedKmph : String
  WeatherDesc : List DescEntry
  deriving DecidableEq

/-- Element of an `hourly` array. -/
structure HourlyEntry where
  WeatherDesc : List DescEntry
  PrecipMM : String
  ChanceOfRain : String
  deriving DecidableEq

/-- Element of the `weather` array. -/
structure DayEntry where
  Date : String
  MaxtempC : String
  MintempC : String
  Hourly : List HourlyEntry
  deriving DecidableEq

/-- The decoded upstream document. -/
structure WeatherData where
  CurrentCondition : List CurrentEntry
  Weather : List DayEntry
  deriving DecidableEq

/-! ## Tool inputs -/

/-- Arguments of `get_current_weather` and `check_rain_probability`. -/
structure LocationInput where
  Location : String
  deriving DecidableEq

/-- Arguments of `get_forecast`; an omitted `days` decodes to 0. -/
structure ForecastInput where
  Location : String
  Days : Int
  deriving DecidableEq

/-- Arguments of `compare_weather`. -/
structure CompareInput where
  Location1 : String
  Location2 : String
  deriving DecidableEq

/-! ## Outcomes of a handler -/

/-- What a call of a handler does: return a result text, return an error, or
panic on an index expression `xs[idx]` with `len xs = len`. -/
inductive Outcome (α : Type) where
  | ok (out : α)
  | error (msg : String)
  | indexOutOfRange (idx len : Nat)
  deriving DecidableEq

namespace Outcome

/-- Sequencing: an error or a panic ends the handler. -/
def bind {α β : Type} (x : Outcome α) (f : α → Outcome β) : Outcome β :=
  match x with
  | ok a => f a
  | error msg => error msg
  | indexOutOfRange idx len => indexOutOfRange idx len

instance : Monad Outcome where
  pure := ok
  bind := bind

end Outcome

/-- The index expression `xs[i]` of Go: the element, or a run-time panic. -/
def index {α : Type} (xs : List α) (i : Nat) : Outcome α :=
  match xs.get? i with
  | some x => Outcome.ok x
  | none => Outcome.indexOutOfRange i xs.length

/-- Result of `fetchWeather`: an error, or the decoded document. -/
abbrev Fetcher := String → Except String WeatherData

/-! ## Machine integers and `fmt.Sscanf(s, "%d", &x)` -/

/-- Two's-complement wrap-around of a 64-bit `int`. -/
def wrap64 (x : Int) : Int := (x + 2 ^ 63) % 2 ^ 64 - 2 ^ 63

/-- The white space of `fmt` (`isSpace`), line feed included. -/
def isSpace (c : Char) : Bool :=
  let n := c.toNat
  (0x09 ≤ n && n ≤ 0x0d) || n == 0x20 || n == 0x85 || n == 0xa0 || n == 0x1680 ||
    (0x2000 ≤ n && n ≤ 0x200a) || n == 0x2028 || n == 0x2029 || n == 0x202f ||
    n == 0x205f || n == 0x3000

/-- The method `SkipSpace` in a `Sscanf` scan: leading blanks are dropped, a line feed is
an error (`none`). -/
def skipSpace : List Char → Option (List Char)
  | [] => some []
  | c :: cs =>
    if c = '\n' then none
    else if isSpace c then skipSpace cs
    else some (c :: cs)

/-- The characters `scanNumber` accepts for the verb `%d`: the decimal digits
`0123456789` (an underscore belongs to the digits of the verb `%v` only). -/
def isScanDigit (c : Char) : Bool := c.isDigit

/-- Value of a string of decimal digits, most significant first. -/
def decimalValue (cs : List Char) : Nat :=
  cs.foldl (fun acc c => 10 * acc + (c.toNat - '0'.toNat)) 0

/-- The call `strconv.ParseInt(tok, 10, 64)` on the token of `scanInt`, a sign
(`neg`) followed by the decimal digits `tok`: the value has to fit the 64-bit
range. -/
def parseInt64 (neg : Bool) (tok : List Char) : Option Int :=
  let v : Int := if neg then -(decimalValue tok : Int) else (decimalValue tok : Int)
  if -(2 ^ 63) ≤ v ∧ v < 2 ^ 63 then some v else none

/-- The optional sign that `scanInt` accepts before the digits. -/
def acceptSign : List Char → Bool × List Char
  | '-' :: cs => (true, cs)
  | '+' :: cs => (false, cs)
  | cs => (false, cs)

/-- The scan `fmt.Sscanf(s, "%d", &x)`: the integer stored in `x`, or `none` when
the scan fails and `x` is left alone.  Blanks are skipped, an optional sign and
then the longest run of decimal digits is taken; the run must not be empty;
what follows the token is ignored. -/
def scanInt (s : String) : Option Int :=
  match skipSpace s.toList with
  | none => none
  | some rest =>
    let signed := acceptSign rest
    let tok := signed.2.takeWhile isScanDigit
    if tok.isEmpty then none else parseInt64 signed.1 tok

/-- Value of an `int` variable declared as zero and then passed to
`fmt.Sscanf(s, "%d", &x)`, the error of the scan being dropped. -/
def sscanfInt (s : String) : Int := (scanInt s).getD 0

/-! ## Tool 1: `GetCurrentWeather` -/

/-- The format string of `GetCurrentWeather`, instantiated. -/
def currentText (location : String) (current : CurrentEntry) (desc : String) : String :=
  "Weather in " ++ location ++ ":\nTemperature: " ++ current.TempC ++ "°C (" ++ current.TempF ++
    "°F)\nConditions: " ++ desc ++ "\nFeels like: " ++ current.FeelsLikeC ++ "°C\nHumidity: " ++
    current.Humidity ++ "%\nWind: " ++ current.WindspeedKmph ++ " km/h"

/-- The handler of `get_current_weather`. -/
def GetCurrentWeather (fetch : Fetcher) (input : LocationInput) : Outcome String :=
  match fetch input.Location with
  | .error err => .error err
  | .ok data => do
    let current ← index data.CurrentCondition 0
    let desc ← index current.WeatherDesc 0
    pure (currentText input.Location current desc.Value)

/-! ## Tool 2: `GetForecast` -/

/-- The two assignments that open `GetForecast`: the day count in use. -/
def effectiveDays (days : Int) : Int :=
  let days := if days = 0 then 3 else days
  if days > 3 then 3 else days

/-- One pass of the loop body of `GetForecast` for the index `i`. -/
def forecastStep (weather : List DayEntry) (result : String) (i : Nat) : Outcome String := do
  let day ← index weather i
  let result := result ++ (day.Date ++ ":\n")
  let result := result ++ ("  High: " ++ day.MaxtempC ++ "°C, Low: " ++ day.MintempC ++ "°C\n")
  if day.Hourly.length > 4 then do
    let hour ← index day.Hourly 4
    let desc ← index hour.WeatherDesc 0
    let result := result ++ ("  Conditions: " ++ desc.Value ++ "\n")
    let result := result ++ ("  Precipitation: " ++ hour.PrecipMM ++ "mm\n\n")
    pure result
  else
    pure result

/-- The variable `maxDays := min(input.Days, len(data.Weather))`. -/
def maxDays (days : Int) (weather : List DayEntry) : Int :=
  min days (weather.length : Int)

/-- The handler of `get_forecast`. -/
def GetForecast (fetch : Fetcher) (input : ForecastInput) : Outcome String :=
  let days := effectiveDays input.Days
  match fetch input.Location with
  | .error err => .error err
  | .ok data =>
    let result := "Forecast for " ++ input.Location ++ ":\n\n"
    -- `for i := range maxDays`: the indices `0, ..., maxDays - 1`, none for a bound below 1
    (List.range (maxDays days data.Weather).toNat).foldlM (forecastStep data.Weather) result

/-! ## Tool 3: `CompareWeather` -/

/-- The classification of `CompareWeather`: the wording and the printed difference. -/
def compareTemps (temp1Int temp2Int : Int) : String × Int :=
  let diff := wrap64 (temp1Int - temp2Int)
  if diff > 0 then ("warmer", diff)
  else if diff < 0 then ("cooler", wrap64 (-diff))
  else ("the same temperature as", 0)

/-- The format string of `CompareWeather`, instantiated. -/
def compareText (loc1 temp1 cond1 loc2 temp2 cond2 comparison : String) (diff : Int) : String :=
  loc1 ++ ": " ++ temp1 ++ "°C, " ++ cond1 ++ "\n" ++ loc2 ++ ": " ++ temp2 ++ "°C, " ++ cond2 ++
    "\n\n" ++ loc1 ++ " is " ++ comparison ++ " " ++ loc2 ++ " (" ++ toString diff ++
    "°C difference)"

/-- The handler of `compare_weather`. -/
def CompareWeather (fetch : Fetcher) (input : CompareInput) : Outcome String :=
  match fetch input.Location1 with
  | .error err => .error err
  | .ok data1 =>
    match fetch input.Location2 with
    | .error err => .error err
    | .ok data2 => do
      let current1 ← index data1.CurrentCondition 0
      let temp1 := current1.TempC
      let current2 ← index data2.CurrentCondition 0
      let temp2 := current2.TempC
      let cond1 ← index current1.WeatherDesc 0
      let cond2 ← index current2.WeatherDesc 0
      let temp1Int := sscanfInt temp1
      let temp2Int := sscanfInt temp2
      let (comparison, diff) := compareTemps temp1Int temp2Int
      pure (compareText input.Location1 temp1 cond1.Value input.Location2 temp2 cond2.Value
        comparison diff)

/-! ## Floating point (`float64`) -/

/-- A `float64`: a finite value `± mag` (with `0 ≤ mag`, the zero being signed),
an infinity, or a NaN. -/
inductive F64 where
  | finite (neg : Bool) (mag : ℚ)
  | inf (neg : Bool)
  | nan
  deriving DecidableEq

namespace F64

/-- The rational value of a finite `float64` (0 for the others). -/
def toRat : F64 → ℚ
  | finite neg mag => if neg then -mag else mag
  | _ => 0

/-- The value is finite, with a magnitude that is not negative. -/
def isFinite : F64 → Bool
  | finite _ mag => decide (0 ≤ mag)
  | _ => false

/-- Nearest integer, a tie going to the even one. -/
def roundHalfEven (x : ℚ) : Int :=
  let n := ⌊x⌋
  let frac := x - n
  if frac < 1 / 2 then n
  else if 1 / 2 < frac then n + 1
  else if n % 2 = 0 then n else n + 1

/-- Floor of the binary logarithm of `n` (0 for `n < 2`), by halving. -/
def floorLog2 : Nat → Nat → Nat
  | 0, _ => 0
  | fuel + 1, n => if n < 2 then 0 else floorLog2 fuel (n / 2) + 1

/-- Ceiling of the binary logarithm of `n` (0 for `n < 2`), by halving. -/
def ceilLog2 : Nat → Nat → Nat
  | 0, _ => 0
  | fuel + 1, n => if n < 2 then 0 else ceilLog2 fuel ((n + 1) / 2) + 1

/-- The binary exponent `e` of a positive magnitude: `2 ^ e ≤ mag < 2 ^ (e + 1)`. -/
def exponent (mag : ℚ) : Int :=
  if 1 ≤ mag then (floorLog2 ⌊mag⌋₊ ⌊mag⌋₊ : Int) else -(ceilLog2 ⌈mag⁻¹⌉₊ ⌈mag⁻¹⌉₊ : Int)

/-- The spacing of the `float64` values around `mag`: 53 significant bits, the
exponent not below that of the subnormal numbers. -/
def ulp (mag : ℚ) : ℚ := (2 : ℚ) ^ (max (exponent mag) (-1022) - 52)

/-- The magnitude `mag` rounded to a multiple of its `ulp`, ties to even. -/
def roundMag (mag : ℚ) : ℚ := (roundHalfEven (mag / ulp mag) : ℚ) * ulp mag

/-- Rounding of the exact result `± mag` to a `float64`; a result that rounds
to `2 ^ 1024` or more overflows to an infinity. -/
def round (neg : Bool) (mag : ℚ) : F64 :=
  if roundMag mag < 2 ^ 1024 then finite neg (roundMag mag) else inf neg

/-- The `float64` nearest to a rational number: the value of a constant. -/
def ofRat (q : ℚ) : F64 := round (decide (q < 0)) |q|

/-- Addition of `float64`. -/
def add : F64 → F64 → F64
  | nan, _ => nan
  | _, nan => nan
  | inf a, inf b => if a = b then inf a else nan
  | inf a, finite _ _ => inf a
  | finite _ _, inf b => inf b
  | finite a x, finite b y =>
    let s := (finite a x).toRat + (finite b y).toRat
    if s = 0 then finite (a && b) 0 else round (decide (s < 0)) |s|

/-- Sign change. -/
def neg : F64 → F64
  | finite a x => finite (!a) x
  | inf a => inf (!a)
  | nan => nan

/-- Subtraction of `float64`. -/
def sub (x y : F64) : F64 := add x (neg y)

/-- Multiplication of `float64`. -/
def mul : F64 → F64 → F64
  | nan, _ => nan
  | _, nan => nan
  | inf a, inf b => inf (xor a b)
  | inf a, finite b y => if y = 0 then nan else inf (xor a b)
  | finite a x, inf b => if x = 0 then nan else inf (xor a b)
  | finite a x, finite b y => round (xor a b) (x * y)

/-- Division of `float64`. -/
def div : F64 → F64 → F64
  | nan, _ => nan
  | _, nan => nan
  | inf _, inf _ => nan
  | inf a, finite b _ => inf (xor a b)
  | finite a _, inf b => finite (xor a b) 0
  | finite a x, finite b y =>
    if y = 0 then (if x = 0 then nan else inf (xor a b)) else round (xor a b) (x / y)

instance : Add F64 := ⟨add⟩

instance : Sub F64 := ⟨sub⟩

instance : Mul F64 := ⟨mul⟩

instance : Div F64 := ⟨div⟩

/-- The number of tenths in the magnitude `mag`, rounded to the nearest with
ties to even: the digits that the verb `%.1f` writes. -/
def tenths (mag : ℚ) : Nat := (roundHalfEven (mag * 10)).toNat

/-- The verb `%.1f`: one digit after the point, the exact value rounded to the
nearest tenth with ties to even. -/
def formatOneDecimal : F64 → String
  | nan => "NaN"
  | inf neg => if neg then "-Inf" else "+Inf"
  | finite neg mag =>
    (if neg then "-" else "") ++ toString (tenths mag / 10) ++ "." ++ toString (tenths mag % 10)

/-- The decimal number that `formatOneDecimal` writes for a finite value. -/
def printed : F64 → ℚ
  | finite neg mag => if neg then -((tenths mag : ℚ) / 10) else (tenths mag : ℚ) / 10
  | _ => 0

/-- The `float64` obtained by reading the text of `formatOneDecimal` back, as a
client does that passes a printed result to the next call: the decimal number
is decoded to the nearest `float64`, its sign kept. -/
def reread : F64 → F64
  | finite neg mag => round neg ((tenths mag : ℚ) / 10)
  | x => x

end F64

/-! ## Tool 4: `ConvertTemperature` -/

/-- Arguments of `convert_temperature`. -/
structure ConvertInput where
  Temp : F64
  FromUnit : String
  ToUnit : String
  deriving DecidableEq

/-- The constant `32`. -/
def const32 : F64 := F64.finite false 32

/-- The constant `5`. -/
def const5 : F64 := F64.finite false 5

/-- The constant `9`. -/
def const9 : F64 := F64.finite false 9

/-- The constant `273.15`, rounded to a `float64`. -/
def const273_15 : F64 := F64.ofRat (27315 / 100)

/-- The first `switch` of `ConvertTemperature`: the variable `celsius`. -/
def celsiusOf (input : ConvertInput) : F64 :=
  if input.FromUnit = "F" then (input.Temp - const32) * const5 / const9
  else if input.FromUnit = "K" then input.Temp - const273_15
  else input.Temp

/-- The second `switch` of `ConvertTemperature`: the variable `result`. -/
def convertedValue (input : ConvertInput) : F64 :=
  let celsius := celsiusOf input
  if input.ToUnit = "F" then celsius * const9 / const5 + const32
  else if input.ToUnit = "K" then celsius + const273_15
  else celsius

/-- The handler of `convert_temperature`. -/
def ConvertTemperature (input : ConvertInput) : Outcome String :=
  let result := convertedValue input
  let output := F64.formatOneDecimal input.Temp ++ "°" ++ input.FromUnit ++ " = " ++
    F64.formatOneDecimal result ++ "°" ++ input.ToUnit
  .ok output

/-! ## Tool 5: `CheckRainProbability` -/

/-- The variable `total` after the loop over the hourly records. -/
def rainTotal (hours : List HourlyEntry) : Int :=
  hours.foldl (fun total hour => wrap64 (total + sscanfInt hour.ChanceOfRain)) 0

/-- The variable `avgChance`: `total / count` of Go (quotient truncated toward
zero) when there is an hourly record, else zero. -/
def avgChance (today : DayEntry) : Int :=
  let total := rainTotal today.Hourly
  let count := today.Hourly.length
  if count > 0 then Int.tdiv total (count : Int) else 0

/-- The variables `level` and `advice`. -/
def rainLevel (avg : Int) : String × String :=
  if avg > 70 then ("High", "Bring an umbrella!")
  else if avg > 40 then ("Moderate", "Maybe bring an umbrella")
  else ("Low", "You should be fine without an umbrella")

/-- The format string of `CheckRainProbability`, instantiated. -/
def rainText (level location : String) (avg : Int) (advice : String) : String :=
  level ++ " chance of rain in " ++ location ++ " today (" ++ toString avg ++ "%)\n" ++ advice

/-- The handler of `check_rain_probability`. -/
def CheckRainProbability (fetch : Fetcher) (input : LocationInput) : Outcome String :=
  match fetch input.Location with
  | .error err => .error err
  | .ok data =>
    if data.Weather.length = 0 then .error "no weather data available"
    else do
      let today ← index data.Weather 0
      let avg := avgChance today
      let (level, advice) := rainLevel avg
      pure (rainText level input.Location avg advice)

/-! ## The conversion of the specification -/

/-- First leg, in exact arithmetic: a reading `v` in the unit `unit`, in
Celsius: `(v-32)×5/9` for "F", `v-273.15` for "K", `v` for any other unit. -/
def toCelsius (unit : String) (v : ℚ) : ℚ :=
  match unit with
  | "F" => (v - 32) * 5 / 9
  | "K" => v - 27315 / 100
  | _ => v

/-- Second leg, in exact arithmetic: a Celsius value `c` in the unit `unit`:
`c×9/5+32` for "F", `c+273.15` for "K", `c` for any other unit. -/
def toTarget (unit : String) (c : ℚ) : ℚ :=
  match unit with
  | "F" => c * 9 / 5 + 32
  | "K" => c + 27315 / 100
  | _ => c

/-- The first leg in exact arithmetic with the offset `k` in place of 273.15. -/
def exactToCelsius (k : ℚ) (unit : String) (v : ℚ) : ℚ :=
  if unit = "F" then (v - 32) * 5 / 9 else if unit = "K" then v - k else v

/-- The second leg in exact arithmetic with the offset `k` in place of 273.15. -/
def exactToTarget (k : ℚ) (unit : String) (c : ℚ) : ℚ :=
  if unit = "F" then c * 9 / 5 + 32 else if unit = "K" then c + k else c

/-- Conversion of the reading `v` from `unitA` to `unitB`. -/
def convert (v : F64) (unitA unitB : String) : F64 :=
  convertedValue { Temp := v, FromUnit := unitA, ToUnit := unitB }

/-- The exact value of the `float64` constant `273.15`. -/
def kelvinOffset : ℚ := 2402652809016115 / 8796093022208

/-- The finite `float64` `x` is within `δ` of the rational number `e`. -/
def Near (x : F64) (e δ : ℚ) : Prop := x.isFinite = true ∧ |x.toRat - e| ≤ δ

/-! ## The mean of the specification -/

/-- The integer rain chances of the hourly records of a day. -/
def rainChances (today : DayEntry) : List Int :=
  today.Hourly.map (fun hour => sscanfInt hour.ChanceOfRain)

/-- Arithmetic mean of a list of integers, as a rational number. -/
def arithmeticMean (xs : List Int) : ℚ := (xs.sum : ℚ) / (xs.length : ℚ)

/-- Truncation of a rational number to an integer, toward zero. -/
def truncate (q : ℚ) : Int := if 0 ≤ q then ⌊q⌋ else ⌈q⌉

/-! ## The day-blocks of the specification -/

/-- The lines for the midday record of a day: the description and the
precipitation of the hourly record at index 4, when the day has one with a
description. -/
def middayLines (day : DayEntry) : String :=
  match day.Hourly.get? 4 with
  | none => ""
  | some hour =>
    match hour.WeatherDesc.head? with
    | none => ""
    | some desc =>
      "  Conditions: " ++ desc.Value ++ "\n" ++ ("  Precipitation: " ++ hour.PrecipMM ++ "mm\n\n")

/-- The block of text for one day: its date, its highest and lowest
temperature, and the midday lines. -/
def dayBlock (day : DayEntry) : String :=
  day.Date ++ ":\n" ++ ("  High: " ++ day.MaxtempC ++ "°C, Low: " ++ day.MintempC ++ "°C\n") ++
    middayLines day

/-- The day count of the specification: 3 for a request of 0 or above 3,
otherwise the request. -/
def requestedCount (days : Int) : Nat :=
  if days = 0 ∨ days > 3 then 3 else days.toNat

/-- The hourly record at index 4 of the day, if there is one, has a description. -/
def middayDescribed (day : DayEntry) : Bool :=
  match day.Hourly.get? 4 with
  | none => true
  | some hour => !hour.WeatherDesc.isEmpty

/-- Every day of `days` has a description in its hourly record at index 4. -/
def MiddayDescribed (days : List DayEntry) : Prop :=
  ∀ day ∈ days, middayDescribed day = true

instance (days : List DayEntry) : Decidable (MiddayDescribed days) :=
  inferInstanceAs (Decidable (∀ day ∈ days, middayDescribed day = true))

/-! ## Sample documents -/

/-- A current-condition record with the reading `temp` and one description. -/
def sampleCurrent (temp : String) : CurrentEntry :=
  { TempC := temp, TempF := "", FeelsLikeC := "", Humidity := "", WindspeedKmph := "",
    WeatherDesc := [{ Value := "Sunny" }] }

/-- A source that answers `tempA` for the location `"A"` and `tempB` elsewhere. -/
def fetchPair (tempA tempB : String) : Fetcher := fun location =>
  if location = "A" then .ok { CurrentCondition := [sampleCurrent tempA], Weather := [] }
  else .ok { CurrentCondition := [sampleCurrent tempB], Weather := [] }

/-- An hourly record with the rain chance `chance` and one description. -/
def sampleHour (chance : String) : HourlyEntry :=
  { WeatherDesc := [{ Value := "Rain" }], PrecipMM := "0.0", ChanceOfRain := chance }

/-- A day dated `date` whose hourly records have the rain chances `chances`. -/
def sampleDayOn (date : String) (chances : List String) : DayEntry :=
  { Date := date, MaxtempC := "5", MintempC := "1", Hourly := chances.map sampleHour }

/-- A day whose hourly records have the rain chances `chances`. -/
def sampleDay (chances : List String) : DayEntry := sampleDayOn "2024-01-01" chances

/-- A document of four days, the second with five hourly records. -/
def sampleForecast : WeatherData :=
  { CurrentCondition := [sampleCurrent "3"],
    Weather := [sampleDayOn "2024-01-01" [], sampleDayOn "2024-01-02" ["10", "20", "30", "40", "50"],
      sampleDayOn "2024-01-03" ["0"], sampleDayOn "2024-01-04" []] }

/-- A document with no current-condition record. -/
def noCurrent : WeatherData := { CurrentCondition := [], Weather := [sampleDay ["10"]] }

/-- A current-condition record with an empty description list. -/
def currentEntryWithoutDesc : CurrentEntry :=
  { TempC := "3", TempF := "37", FeelsLikeC := "1", Humidity := "80", WindspeedKmph := "10",
    WeatherDesc := [] }

/-- A document whose current-condition record has no description. -/
def currentWithoutDesc : WeatherData :=
  { CurrentCondition := [currentEntryWithoutDesc], Weather := [] }

/-- An hourly record with an empty description list. -/
def hourWithoutDesc : HourlyEntry := { WeatherDesc := [], PrecipMM := "0.0", ChanceOfRain := "0" }

/-- A day of five hourly records, the record at index 4 having no description. -/
def dayWithoutMiddayDesc : DayEntry :=
  { Date := "2024-01-01", MaxtempC := "5", MintempC := "1",
    Hourly := [sampleHour "0", sampleHour "0", sampleHour "0", sampleHour "0", hourWithoutDesc] }

/-- A document whose only day has no description in its hourly record at index 4. -/
def middayWithoutDesc : WeatherData :=
  { CurrentCondition := [sampleCurrent "3"], Weather := [dayWithoutMiddayDesc] }

/-- A document of two days, the second without a description in its hourly
record at index 4. -/
def forecastWithGap : WeatherData :=
  { CurrentCondition := [sampleCurrent "3"],
    Weather := [sampleDayOn "2024-01-01" ["10"], dayWithoutMiddayDesc] }

/-- A source that answers the same document for every location. -/
def fetchConst (data : WeatherData) : Fetcher := fun _ => .ok data

/-! ## Auxiliary facts -/

theorem two_pow_63 : (2 : Int) ^ 63 = 9223372036854775808 := by norm_num

theorem two_pow_64 : (2 : Int) ^ 64 = 18446744073709551616 := by norm_num

theorem wrap64_of_range (x : Int) (hlo : -(2 ^ 63) ≤ x) (hhi : x < 2 ^ 63) : wrap64 x = x := by
  unfold wrap64
  rw [two_pow_63] at hlo hhi
  rw [two_pow_63, two_pow_64]
  omega

theorem wrap64_add_wrap64 (a b : Int) : wrap64 (wrap64 a + b) = wrap64 (a + b) := by
  unfold wrap64
  rw [two_pow_63, two_pow_64]
  omega

theorem parseInt64_range (neg : Bool) (tok : List Char) (v : Int)
    (h : parseInt64 neg tok = some v) : -(2 ^ 63) ≤ v ∧ v < 2 ^ 63 := by
  unfold parseInt64 at h
  generalize (if neg = true then -(decimalValue tok : Int) else (decimalValue tok : Int)) = w at h
  dsimp only at h
  split at h
  · rename_i hr
    have hv := Option.some.inj h
    rw [← hv]
    exact hr
  · exact absurd h (by simp)

theorem scanInt_range (s : String) (v : Int) (h : scanInt s = some v) :
    -(2 ^ 63) ≤ v ∧ v < 2 ^ 63 := by
  unfold scanInt at h
  split at h
  · exact absurd h (by simp)
  · dsimp only at h
    split at h
    · exact absurd h (by simp)
    · exact parseInt64_range _ _ v h

/-- Sample scans: what follows the digits is ignored, an underscore included; a
sign is accepted; a token without digits, a line feed before the token, or a
value outside the 64-bit range leaves the variable at zero. -/
theorem sscanfInt_samples :
    sscanfInt "25" = 25 ∧ sscanfInt "25_" = 25 ∧ sscanfInt "1_0" = 1 ∧ sscanfInt " -12abc" = -12 ∧
    sscanfInt "+7" = 7 ∧ sscanfInt "25.9" = 25 ∧ sscanfInt "_5" = 0 ∧ sscanfInt "abc" = 0 ∧
    sscanfInt "" = 0 ∧ sscanfInt "-" = 0 ∧ sscanfInt "\n5" = 0 ∧
    sscanfInt "9223372036854775807" = 9223372036854775807 ∧
    sscanfInt "9223372036854775808" = 0 ∧
    sscanfInt "-9223372036854775808" = -9223372036854775808 := by
  decide

/-- An `int` read by `Sscanf` is a 64-bit value. -/
theorem sscanfInt_range (s : String) : -(2 ^ 63) ≤ sscanfInt s ∧ sscanfInt s < 2 ^ 63 := by
  unfold sscanfInt
  cases h : scanInt s with
  | none => simp
  | some v => simpa using scanInt_range s v h

theorem index_zero_of_head? {α : Type} (xs : List α) (x : α) (h : xs.head? = some x) :
    index xs 0 = Outcome.ok x := by
  cases xs with
  | nil => simp at h
  | cons y ys =>
    simp only [List.head?_cons, Option.some.injEq] at h
    subst h
    rfl

theorem bind_ok {α β : Type} (a : α) (f : α → Outcome β) : (Outcome.ok a >>= f) = f a := rfl

theorem pure_eq_ok {α : Type} (a : α) : (pure a : Outcome α) = Outcome.ok a := rfl

/-- The handler `CompareWeather` once both fetches and all four index expressions succeed. -/
theorem CompareWeather_eq (fetch : Fetcher) (input : CompareInput) (data1 data2 : WeatherData)
    (c1 c2 : CurrentEntry) (d1 d2 : DescEntry)
    (hf1 : fetch input.Location1 = .ok data1) (hf2 : fetch input.Location2 = .ok data2)
    (hc1 : data1.CurrentCondition.head? = some c1) (hc2 : data2.CurrentCondition.head? = some c2)
    (hd1 : c1.WeatherDesc.head? = some d1) (hd2 : c2.WeatherDesc.head? = some d2) :
    CompareWeather fetch input =
      Outcome.ok (compareText input.Location1 c1.TempC d1.Value input.Location2 c2.TempC d2.Value
        (compareTemps (sscanfInt c1.TempC) (sscanfInt c2.TempC)).1
        (compareTemps (sscanfInt c1.TempC) (sscanfInt c2.TempC)).2) := by
  unfold CompareWeather
  simp only [hf1, hf2, index_zero_of_head? _ _ hc1, index_zero_of_head? _ _ hc2,
    index_zero_of_head? _ _ hd1, index_zero_of_head? _ _ hd2, bind_ok, pure_eq_ok]

/-- The classification when the difference of the two readings is representable
and is not the least 64-bit value. -/
theorem compareTemps_of_small (a b : Int) (h : |a - b| < 2 ^ 63) :
    compareTemps a b =
      (if a - b > 0 then "warmer" else if a - b < 0 then "cooler" else "the same temperature as",
        |a - b|) := by
  have hab := abs_lt.mp h
  have hw : wrap64 (a - b) = a - b := wrap64_of_range _ (le_of_lt hab.1) hab.2
  unfold compareTemps
  simp only [hw]
  by_cases hpos : a - b > 0
  · simp only [hpos, if_true, abs_of_pos hpos]
  · by_cases hneg : a - b < 0
    · have hw2 : wrap64 (-(a - b)) = -(a - b) :=
        wrap64_of_range _ (by linarith [hab.2]) (by linarith [hab.1])
      simp only [hpos, hneg, if_true, if_false, hw2, abs_of_neg hneg]
    · have hz : a - b = 0 := by omega
      rw [hz]
      rfl


/-- Both classifications of a pair of 64-bit readings, in the two orders. -/
theorem compareTemps_swap (a b : Int) (ha : -(2 ^ 63) ≤ a ∧ a < 2 ^ 63)
    (hb : -(2 ^ 63) ≤ b ∧ b < 2 ^ 63) (hne : a - b ≠ 2 ^ 63) (hne2 : a - b ≠ -(2 ^ 63)) :
    (compareTemps a b).2 = (compareTemps b a).2 ∧
    (a ≠ b → ((compareTemps a b).1 = "warmer" ∧ (compareTemps b a).1 = "cooler") ∨
      ((compareTemps a b).1 = "cooler" ∧ (compareTemps b a).1 = "warmer")) ∧
    (a = b → (compareTemps a b).1 = "the same temperature as" ∧
      (compareTemps b a).1 = "the same temperature as" ∧ (compareTemps a b).2 = 0) := by
  rw [two_pow_63] at ha hb hne hne2
  have hd : wrap64 (b - a) = -wrap64 (a - b) := by
    unfold wrap64
    rw [two_pow_63, two_pow_64]
    omega
  have hz : wrap64 (a - b) = 0 ↔ a = b := by
    unfold wrap64
    rw [two_pow_63, two_pow_64]
    omega
  have hn : wrap64 (-wrap64 (a - b)) = -wrap64 (a - b) := by
    unfold wrap64
    rw [two_pow_63, two_pow_64]
    omega
  have hnn : wrap64 (- -wrap64 (a - b)) = wrap64 (a - b) := by
    unfold wrap64
    rw [two_pow_63, two_pow_64]
    omega
  unfold compareTemps
  simp only [hd, hn, hnn]
  generalize wrap64 (a - b) = d at hz
  rcases lt_trichotomy d 0 with h | h | h
  · have h1 : ¬ d > 0 := by omega
    have h2 : -d > 0 := by omega
    have h3 : a ≠ b := fun e => by have := hz.mpr e; omega
    simp [h, h1, h2, h3]
  · have h3 : a = b := hz.mp h
    subst h
    simp [h3]
  · have h1 : ¬ d < 0 := by omega
    have h2 : ¬ -d > 0 := by omega
    have h4 : -d < 0 := by omega
    have h3 : a ≠ b := fun e => by have := hz.mpr e; omega
    simp [h, h1, h2, h3, h4]

/-- The loop of `CheckRainProbability` computes the sum of the chances, wrapped. -/
theorem rainTotal_eq_wrap_sum (hours : List HourlyEntry) :
    rainTotal hours = wrap64 ((hours.map (fun hour => sscanfInt hour.ChanceOfRain)).sum) := by
  have key : ∀ (hs : List HourlyEntry) (acc : Int),
      hs.foldl (fun total hour => wrap64 (total + sscanfInt hour.ChanceOfRain)) (wrap64 acc) =
        wrap64 (acc + (hs.map (fun hour => sscanfInt hour.ChanceOfRain)).sum) := by
    intro hs
    induction hs with
    | nil => intro acc; simp
    | cons h t ih =>
      intro acc
      simp only [List.foldl_cons, List.map_cons, List.sum_cons]
      rw [wrap64_add_wrap64, ih, add_assoc]
  have h0 : wrap64 0 = 0 := by decide
  have := key hours 0
  rw [h0, zero_add] at this
  exact this

/-- Go's truncated quotient by a positive count is the truncated rational quotient. -/
theorem truncate_div (a : Int) (n : Nat) (hn : 0 < n) :
    truncate ((a : ℚ) / (n : ℚ)) = Int.tdiv a (n : Int) := by
  have hnq : (0 : ℚ) < (n : ℚ) := by exact_mod_cast hn
  unfold truncate
  by_cases ha : 0 ≤ a
  · have hq : (0 : ℚ) ≤ (a : ℚ) / (n : ℚ) := div_nonneg (by exact_mod_cast ha) hnq.le
    rw [if_pos hq, Rat.floor_intCast_div_natCast, Int.tdiv_eq_ediv ha (Int.natCast_nonneg n)]
  · have ha' : a < 0 := not_le.mp ha
    have hq : ¬ (0 : ℚ) ≤ (a : ℚ) / (n : ℚ) := by
      rw [not_le]
      exact div_neg_of_neg_of_pos (by exact_mod_cast ha') hnq
    rw [if_neg hq]
    have h1 : ((a : ℚ) / (n : ℚ)) = -(((-a : Int) : ℚ) / (n : ℚ)) := by
      push_cast
      ring
    rw [h1, Int.ceil_neg, Rat.floor_intCast_div_natCast]
    have h2 : a = -(-a) := by ring
    conv_rhs => rw [h2, Int.neg_tdiv, Int.tdiv_eq_ediv (by omega) (Int.natCast_nonneg n)]

/-- The handler `CheckRainProbability` once the fetch succeeds and a day is present. -/
theorem CheckRainProbability_eq (fetch : Fetcher) (input : LocationInput) (data : WeatherData)
    (today : DayEntry) (hf : fetch input.Location = .ok data)
    (hw : data.Weather.head? = some today) :
    CheckRainProbability fetch input =
      Outcome.ok (rainText (rainLevel (avgChance today)).1 input.Location (avgChance today)
        (rainLevel (avgChance today)).2) := by
  unfold CheckRainProbability
  have hlen : ¬ data.Weather.length = 0 := by
    cases hd : data.Weather with
    | nil => rw [hd] at hw; simp at hw
    | cons d ds => simp
  simp only [hf, hlen, if_false, index_zero_of_head? _ _ hw, bind_ok, pure_eq_ok]

theorem index_of_get? {α : Type} (xs : List α) (i : Nat) (x : α) (h : xs.get? i = some x) :
    index xs i = Outcome.ok x := by
  unfold index
  rw [h]

theorem String_join_cons (a : String) (l : List String) :
    String.join (a :: l) = a ++ String.join l := by
  have key : ∀ (l : List String) (init : String),
      l.foldl (fun r s => r ++ s) init = init ++ l.foldl (fun r s => r ++ s) "" := by
    intro l
    induction l with
    | nil => intro init; simp
    | cons b t ih =>
      intro init
      rw [List.foldl_cons, List.foldl_cons, ih (init ++ b), ih ("" ++ b), String.empty_append,
        String.append_assoc]
  unfold String.join
  rw [List.foldl_cons, key l ("" ++ a), String.empty_append]

/-- One pass of the loop of `GetForecast` appends the block of the day. -/
theorem forecastStep_eq (weather : List DayEntry) (result : String) (i : Nat) (day : DayEntry)
    (hday : weather.get? i = some day)
    (hdesc : ∀ hour, day.Hourly.get? 4 = some hour → hour.WeatherDesc ≠ []) :
    forecastStep weather result i = Outcome.ok (result ++ dayBlock day) := by
  unfold forecastStep
  simp only [index_of_get? _ _ _ hday, bind_ok]
  by_cases hlen : day.Hourly.length > 4
  · obtain ⟨hour, hhour⟩ : ∃ hour, day.Hourly.get? 4 = some hour := by
      cases hq : day.Hourly.get? 4 with
      | none => rw [List.get?_eq_none] at hq; omega
      | some hour => exact ⟨hour, rfl⟩
    obtain ⟨desc, hdesc'⟩ : ∃ desc, hour.WeatherDesc.head? = some desc := by
      cases hq : hour.WeatherDesc with
      | nil => exact absurd hq (hdesc hour hhour)
      | cons d ds => exact ⟨d, rfl⟩
    simp only [hlen, if_true, index_of_get? _ _ _ hhour, index_zero_of_head? _ _ hdesc', bind_ok,
      pure_eq_ok, dayBlock, middayLines, hhour, hdesc', String.append_assoc]
  · have hnone : day.Hourly.get? 4 = none := by
      rw [List.get?_eq_none]
      omega
    simp only [hlen, if_false, pure_eq_ok, dayBlock, middayLines, hnone, String.append_assoc,
      String.append_empty]

/-- The loop of `GetForecast` over the indices `start, ..., start + count - 1`. -/
theorem forecastLoop_eq (weather : List DayEntry) (count : Nat) :
    ∀ (start : Nat) (result : String), start + count ≤ weather.length →
      MiddayDescribed ((weather.drop start).take count) →
      (List.range' start count).foldlM (forecastStep weather) result =
        Outcome.ok (result ++ String.join (((weather.drop start).take count).map dayBlock)) := by
  induction count with
  | zero =>
    intro start result _ _
    simp [pure_eq_ok, String.join]
  | succ n ih =>
    intro start result hlen hdesc
    have hlt : start < weather.length := by omega
    have hdrop : weather.drop start = weather.get ⟨start, hlt⟩ :: weather.drop (start + 1) :=
      List.drop_eq_getElem_cons hlt
    have hget : weather.get? start = some (weather.get ⟨start, hlt⟩) := List.get?_eq_get hlt
    rw [hdrop, List.take_succ_cons] at hdesc
    have hstep := forecastStep_eq weather result start _ hget
      (fun hour hh => by
        have hb := hdesc _ (List.mem_cons_self _ _)
        unfold middayDescribed at hb
        rw [hh] at hb
        intro he
        simp [he] at hb)
    have hrest := ih (start + 1) (result ++ dayBlock (weather.get ⟨start, hlt⟩)) (by omega)
      (fun day hmem => hdesc day (List.mem_cons_of_mem _ hmem))
    rw [List.range'_succ, List.foldlM_cons, hstep, bind_ok, hrest, hdrop, List.take_succ_cons,
      List.map_cons]
    rw [String_join_cons, String.append_assoc]

/-- The day count in use for a request that is not negative. -/
theorem effectiveDays_of_nonneg (days : Int) (h : 0 ≤ days) :
    effectiveDays days = (requestedCount days : Int) ∧
      1 ≤ requestedCount days ∧ requestedCount days ≤ 3 := by
  by_cases hc : days = 0 ∨ days > 3
  · have hrc : requestedCount days = 3 := by
      unfold requestedCount
      exact if_pos hc
    have he : effectiveDays days = 3 := by
      unfold effectiveDays
      rcases hc with h0 | h3
      · simp [h0]
      · have h0 : days ≠ 0 := by omega
        simp [h0, h3]
    rw [hrc, he]
    simp
  · have hrc : requestedCount days = days.toNat := by
      unfold requestedCount
      exact if_neg hc
    have h0 : days ≠ 0 := fun e => hc (Or.inl e)
    have h3 : ¬ days > 3 := fun e => hc (Or.inr e)
    have he : effectiveDays days = days := by
      unfold effectiveDays
      simp [h0, h3]
    rw [hrc, he]
    omega

/-- The handler `GetForecast` for a request that is not negative. -/
theorem GetForecast_eq (fetch : Fetcher) (input : ForecastInput) (data : WeatherData)
    (hf : fetch input.Location = .ok data) (hdays : 0 ≤ input.Days)
    (hdesc : MiddayDescribed (data.Weather.take (requestedCount input.Days))) :
    GetForecast fetch input =
      Outcome.ok ("Forecast for " ++ input.Location ++ ":\n\n" ++
        String.join ((data.Weather.take (requestedCount input.Days)).map dayBlock)) := by
  have heff := (effectiveDays_of_nonneg input.Days hdays).1
  have hmax : (maxDays (effectiveDays input.Days) data.Weather).toNat =
      min (requestedCount input.Days) data.Weather.length := by
    unfold maxDays
    rw [heff]
    omega
  have htake : data.Weather.take (min (requestedCount input.Days) data.Weather.length) =
      data.Weather.take (requestedCount input.Days) := by
    rw [List.take_eq_take]
    omega
  unfold GetForecast
  simp only [hf, hmax, List.range_eq_range']
  have h := forecastLoop_eq data.Weather (min (requestedCount input.Days) data.Weather.length) 0
    ("Forecast for " ++ input.Location ++ ":\n\n") (by omega)
    (by rw [List.drop_zero, htake]; exact hdesc)
  rw [List.drop_zero, htake] at h
  exact h

/-- A negative request passes both guards of `GetForecast` unchanged. -/
theorem effectiveDays_of_neg (days : Int) (h : days < 0) : effectiveDays days = days := by
  unfold effectiveDays
  have h0 : days ≠ 0 := by omega
  have h3 : ¬ days > 3 := by omega
  simp [h0, h3]

/-- Without a current-condition record `GetCurrentWeather` panics. -/
theorem GetCurrentWeather_of_no_current (fetch : Fetcher) (input : LocationInput)
    (data : WeatherData) (hf : fetch input.Location = .ok data)
    (hc : data.CurrentCondition = []) :
    GetCurrentWeather fetch input = Outcome.indexOutOfRange 0 0 := by
  unfold GetCurrentWeather
  simp only [hf, hc]
  rfl

/-- The handler `CheckRainProbability` never panics: its only index expression is guarded. -/
theorem CheckRainProbability_returns (fetch : Fetcher) (input : LocationInput) :
    (∃ text, CheckRainProbability fetch input = Outcome.ok text) ∨
      (∃ msg, CheckRainProbability fetch input = Outcome.error msg) := by
  unfold CheckRainProbability
  cases hf : fetch input.Location with
  | error err => exact Or.inr ⟨err, rfl⟩
  | ok data =>
    obtain ⟨current, weather⟩ := data
    cases weather with
    | nil => exact Or.inr ⟨"no weather data available", rfl⟩
    | cons today rest => exact Or.inl ⟨_, rfl⟩

/-- For a request that is not negative and a document whose emitted days carry
a description in their hourly record at index 4 (when they have one), the text
of `GetForecast` is the header followed by the blocks of the first
`min d (len days)` days in the order of the document, `d` being 3 for a request
of 0 or above 3 and the request otherwise; with no days it is the header
alone. -/
theorem GetForecast_emits_first_days (fetch : Fetcher) (input : ForecastInput)
    (data : WeatherData) (hf : fetch input.Location = .ok data) (hdays : 0 ≤ input.Days)
    (hdesc : MiddayDescribed (data.Weather.take (requestedCount input.Days))) :
    ∃ blocks : List String,
      GetForecast fetch input =
        Outcome.ok ("Forecast for " ++ input.Location ++ ":\n\n" ++ String.join blocks) ∧
      blocks.length = min (requestedCount input.Days) data.Weather.length ∧
      (∀ k, k < blocks.length →
        blocks.get? k = (data.Weather.get? k).map dayBlock) ∧
      (∀ k day, data.Weather.get? k = some day → k < blocks.length →
        ∃ rest, blocks.get? k =
          some (day.Date ++ ":\n" ++ ("  High: " ++ day.MaxtempC ++ "°C, Low: " ++ day.MintempC ++
            "°C\n") ++ rest)) ∧
      (data.Weather = [] →
        GetForecast fetch input = Outcome.ok ("Forecast for " ++ input.Location ++ ":\n\n")) := by
  have hmain := GetForecast_eq fetch input data hf hdays hdesc
  have hget : ∀ k, k < ((data.Weather.take (requestedCount input.Days)).map dayBlock).length →
      ((data.Weather.take (requestedCount input.Days)).map dayBlock).get? k =
        (data.Weather.get? k).map dayBlock := by
    intro k hk
    rw [List.length_map, List.length_take] at hk
    rw [List.get?_eq_getElem?, List.getElem?_map, List.getElem?_take_of_lt (by omega),
      List.get?_eq_getElem?]
  refine ⟨(data.Weather.take (requestedCount input.Days)).map dayBlock, hmain, ?_, hget, ?_, ?_⟩
  · rw [List.length_map, List.length_take]
  · intro k day hday hk
    refine ⟨middayLines day, ?_⟩
    rw [hget k hk, hday]
    rfl
  · intro hnil
    rw [hmain, hnil]
    simp [String.join]

/-! ## Rounding -/

theorem floorLog2_eq (fuel n : Nat) (h : n ≤ fuel) : F64.floorLog2 fuel n = Nat.log 2 n := by
  induction fuel generalizing n with
  | zero =>
    have : n = 0 := by omega
    subst this
    simp [F64.floorLog2]
  | succ k ih =>
    unfold F64.floorLog2
    by_cases h2 : n < 2
    · rw [if_pos h2, Nat.log_of_lt h2]
    · have hlt : n / 2 < n := Nat.div_lt_self (by omega) (by norm_num)
      rw [if_neg h2, ih (n / 2) (by omega)]
      exact (Nat.log_of_one_lt_of_le (by norm_num) (by omega)).symm

theorem ceilLog2_eq (fuel n : Nat) (h : n ≤ fuel) : F64.ceilLog2 fuel n = Nat.clog 2 n := by
  induction fuel generalizing n with
  | zero =>
    have : n = 0 := by omega
    subst this
    simp [F64.ceilLog2]
  | succ k ih =>
    unfold F64.ceilLog2
    by_cases h2 : n < 2
    · rw [if_pos h2, Nat.clog_of_right_le_one (by omega)]
    · have hlt : (n + 1) / 2 < n := by
        rw [Nat.div_lt_iff_lt_mul (by norm_num)]
        omega
      rw [if_neg h2, ih ((n + 1) / 2) (by omega)]
      exact (Nat.clog_of_two_le (by norm_num) (by omega)).symm

/-- The exponent is the integer binary logarithm. -/
theorem exponent_eq_log (mag : ℚ) : F64.exponent mag = Int.log 2 mag := by
  unfold F64.exponent Int.log
  rw [floorLog2_eq _ _ le_rfl, ceilLog2_eq _ _ le_rfl]

/-- Sample roundings: ties go to the even neighbour, the least subnormal and
the overflow threshold are where binary64 has them, and `%.1f` rounds the
exact value. -/
theorem round_samples :
    F64.ofRat (2 ^ 53 + 1) = F64.finite false (2 ^ 53) ∧
    F64.ofRat (2 ^ 53 + 3) = F64.finite false (2 ^ 53 + 4) ∧
    F64.ofRat (1 / 10) = F64.finite false (3602879701896397 / 36028797018963968) ∧
    F64.ofRat (1 / 10) + F64.ofRat (2 / 10) =
      F64.finite false (1351079888211149 / 4503599627370496) ∧
    F64.ofRat (1 / 2 ^ 1075) = F64.finite false 0 ∧
    F64.ofRat (3 / 2 ^ 1075) = F64.finite false (1 / 2 ^ 1073) ∧
    F64.ofRat (2 ^ 1024 - 2 ^ 970) = F64.inf false ∧
    F64.ofRat (2 ^ 1024 - 2 ^ 970 - 1) = F64.finite false (2 ^ 1024 - 2 ^ 971) ∧
    F64.formatOneDecimal (F64.finite false (1 / 4)) = "0.2" ∧
    F64.formatOneDecimal (F64.finite false (3 / 4)) = "0.8" ∧
    F64.formatOneDecimal (F64.ofRat (27315 / 100)) = "273.1" ∧
    F64.formatOneDecimal (F64.finite true (1 / 32)) = "-0.0" := by
  decide!

theorem roundHalfEven_err (x : ℚ) : |(F64.roundHalfEven x : ℚ) - x| ≤ 1 / 2 := by
  have h1 := Int.floor_le x
  have h2 := Int.lt_floor_add_one x
  unfold F64.roundHalfEven
  simp only
  split_ifs with ha hb hc
  all_goals (push_cast; rw [abs_le]; constructor <;> linarith)

theorem roundHalfEven_nonneg (x : ℚ) (h : 0 ≤ x) : 0 ≤ F64.roundHalfEven x := by
  have h1 : 0 ≤ ⌊x⌋ := Int.floor_nonneg.mpr h
  unfold F64.roundHalfEven
  simp only
  split_ifs <;> omega

theorem ulp_pos (mag : ℚ) : 0 < F64.ulp mag := by
  unfold F64.ulp
  exact zpow_pos (by norm_num) _

theorem ulp_le (mag : ℚ) (h : mag < 2 ^ 34) : F64.ulp mag ≤ 1 / 524288 := by
  have hexp : F64.exponent mag ≤ 33 := by
    rw [exponent_eq_log]
    by_cases h0 : 0 < mag
    · have h' : mag < ((2 : ℕ) : ℚ) ^ (34 : ℤ) := by
        norm_num
        norm_num at h
        exact h
      have := (Int.lt_zpow_iff_log_lt (by norm_num : 1 < 2) h0).mp h'
      omega
    · rw [Int.log_of_right_le_zero 2 (not_lt.mp h0)]
      norm_num
  have hle : max (F64.exponent mag) (-1022) - 52 ≤ -19 := by omega
  have := zpow_le_zpow_right₀ (by norm_num : (1 : ℚ) ≤ 2) hle
  unfold F64.ulp
  calc (2 : ℚ) ^ (max (F64.exponent mag) (-1022) - 52) ≤ (2 : ℚ) ^ (-19 : ℤ) := this
    _ = 1 / 524288 := by norm_num

theorem roundMag_err (mag : ℚ) : |F64.roundMag mag - mag| ≤ F64.ulp mag / 2 := by
  have hu := ulp_pos mag
  have hr := roundHalfEven_err (mag / F64.ulp mag)
  have heq : F64.roundMag mag - mag =
      ((F64.roundHalfEven (mag / F64.ulp mag) : ℚ) - mag / F64.ulp mag) * F64.ulp mag := by
    unfold F64.roundMag
    field_simp
  rw [heq, abs_mul, abs_of_pos hu]
  calc |(F64.roundHalfEven (mag / F64.ulp mag) : ℚ) - mag / F64.ulp mag| * F64.ulp mag
      ≤ 1 / 2 * F64.ulp mag := mul_le_mul_of_nonneg_right hr hu.le
    _ = F64.ulp mag / 2 := by ring

theorem roundMag_nonneg (mag : ℚ) (h : 0 ≤ mag) : 0 ≤ F64.roundMag mag := by
  unfold F64.roundMag
  have hu := ulp_pos mag
  have hn := roundHalfEven_nonneg (mag / F64.ulp mag) (div_nonneg h hu.le)
  have : (0 : ℚ) ≤ (F64.roundHalfEven (mag / F64.ulp mag) : ℚ) := by exact_mod_cast hn
  exact mul_nonneg this hu.le

/-- Rounding a magnitude below `2 ^ 34` gives a finite value within `2 ^ -20`. -/
theorem round_near (neg : Bool) (mag : ℚ) (h0 : 0 ≤ mag) (h : mag < 2 ^ 34) :
    Near (F64.round neg mag) (if neg then -mag else mag) (1 / 1048576) := by
  have herr := roundMag_err mag
  have hulp := ulp_le mag h
  have hnn := roundMag_nonneg mag h0
  have herr' : |F64.roundMag mag - mag| ≤ 1 / 1048576 := by linarith
  have hlt : F64.roundMag mag < 2 ^ 1024 := by
    have h1 := (abs_le.mp herr').2
    have h2 : (2 : ℚ) ^ 41 + 1 ≤ 2 ^ 1024 := by norm_num
    linarith
  unfold F64.round
  rw [if_pos hlt]
  refine ⟨by simp [F64.isFinite, hnn], ?_⟩
  cases neg with
  | false => simpa [F64.toRat] using herr'
  | true =>
    simp only [F64.toRat, if_true]
    have : -F64.roundMag mag - -mag = -(F64.roundMag mag - mag) := by ring
    rw [this, abs_neg]
    exact herr'

/-! ## The four operations on finite values -/

theorem near_finite (x : F64) (e δ : ℚ) (h : Near x e δ) :
    ∃ a m, x = F64.finite a m ∧ 0 ≤ m := by
  obtain ⟨hf, -⟩ := h
  cases x with
  | finite a m => exact ⟨a, m, rfl, by simpa [F64.isFinite] using hf⟩
  | inf a => simp [F64.isFinite] at hf
  | nan => simp [F64.isFinite] at hf

theorem near_const (c : ℚ) (h : 0 ≤ c) : Near (F64.finite false c) c 0 := by
  refine ⟨by simp [F64.isFinite, h], ?_⟩
  simp [F64.toRat]

theorem near_self (x : F64) (h : x.isFinite = true) : Near x x.toRat 0 := by
  refine ⟨h, ?_⟩
  simp

theorem near_mono (x : F64) (e δ δ' : ℚ) (h : Near x e δ) (hle : δ ≤ δ') : Near x e δ' :=
  ⟨h.1, le_trans h.2 hle⟩

theorem near_neg (x : F64) (e δ : ℚ) (h : Near x e δ) : Near (F64.neg x) (-e) δ := by
  obtain ⟨a, m, rfl, hm⟩ := near_finite x e δ h
  obtain ⟨-, hd⟩ := h
  refine ⟨by simp [F64.neg, F64.isFinite, hm], ?_⟩
  have : (F64.neg (F64.finite a m)).toRat = -(F64.finite a m).toRat := by
    cases a <;> simp [F64.neg, F64.toRat]
  rw [this]
  have h2 : -(F64.finite a m).toRat - -e = -((F64.finite a m).toRat - e) := by ring
  rw [h2, abs_neg]
  exact hd

theorem add_near (x y : F64) (ex ey dx dy : ℚ) (hx : Near x ex dx) (hy : Near y ey dy)
    (hb : |ex + ey| + dx + dy < 2 ^ 34) : Near (x + y) (ex + ey) (dx + dy + 1 / 1048576) := by
  obtain ⟨a, mx, rfl, hmx⟩ := near_finite x ex dx hx
  obtain ⟨b, my, rfl, hmy⟩ := near_finite y ey dy hy
  obtain ⟨-, hdx⟩ := hx
  obtain ⟨-, hdy⟩ := hy
  have hdx0 : 0 ≤ dx := le_trans (abs_nonneg _) hdx
  have hdy0 : 0 ≤ dy := le_trans (abs_nonneg _) hdy
  have hs : |(F64.finite a mx).toRat + (F64.finite b my).toRat - (ex + ey)| ≤ dx + dy := by
    have h1 : (F64.finite a mx).toRat + (F64.finite b my).toRat - (ex + ey) =
        ((F64.finite a mx).toRat - ex) + ((F64.finite b my).toRat - ey) := by ring
    rw [h1]
    exact le_trans (abs_add _ _) (add_le_add hdx hdy)
  have hsb : |(F64.finite a mx).toRat + (F64.finite b my).toRat| < 2 ^ 34 := by
    have h1 := abs_sub_abs_le_abs_sub ((F64.finite a mx).toRat + (F64.finite b my).toRat) (ex + ey)
    linarith
  show Near (F64.add (F64.finite a mx) (F64.finite b my)) (ex + ey) (dx + dy + 1 / 1048576)
  unfold F64.add
  simp only
  generalize (F64.finite a mx).toRat + (F64.finite b my).toRat = s at hs hsb
  by_cases hz : s = 0
  · rw [if_pos hz]
    refine ⟨by simp [F64.isFinite], ?_⟩
    have : (F64.finite (a && b) 0).toRat = s := by
      rw [hz]
      cases (a && b) <;> simp [F64.toRat]
    rw [this]
    linarith
  · rw [if_neg hz]
    have hr := round_near (decide (s < 0)) |s| (abs_nonneg s) hsb
    have hval : (if decide (s < 0) = true then -|s| else |s|) = s := by
      by_cases hneg : s < 0
      · simp [hneg, abs_of_neg hneg]
      · simp [hneg, abs_of_nonneg (not_lt.mp hneg)]
    rw [hval] at hr
    refine ⟨hr.1, ?_⟩
    have h1 : (F64.round (decide (s < 0)) |s|).toRat - (ex + ey) =
        ((F64.round (decide (s < 0)) |s|).toRat - s) + (s - (ex + ey)) := by ring
    rw [h1]
    have := abs_add ((F64.round (decide (s < 0)) |s|).toRat - s) (s - (ex + ey))
    linarith [hr.2]

theorem sub_near (x y : F64) (ex ey dx dy : ℚ) (hx : Near x ex dx) (hy : Near y ey dy)
    (hb : |ex - ey| + dx + dy < 2 ^ 34) : Near (x - y) (ex - ey) (dx + dy + 1 / 1048576) := by
  have h := add_near x (F64.neg y) ex (-ey) dx dy hx (near_neg y ey dy hy)
    (by rw [← sub_eq_add_neg]; exact hb)
  rw [← sub_eq_add_neg] at h
  exact h

theorem mul_const_near (x : F64) (ex dx c : ℚ) (hx : Near x ex dx) (hc : 0 ≤ c)
    (hb : (|ex| + dx) * c < 2 ^ 34) :
    Near (x * F64.finite false c) (ex * c) (dx * c + 1 / 1048576) := by
  obtain ⟨a, mx, rfl, hmx⟩ := near_finite x ex dx hx
  obtain ⟨-, hdx⟩ := hx
  have hmag : mx = |(F64.finite a mx).toRat| := by
    cases a <;> simp [F64.toRat, abs_of_nonneg hmx]
  have hmxb : mx ≤ |ex| + dx := by
    rw [hmag]
    have := abs_sub_abs_le_abs_sub ((F64.finite a mx).toRat) ex
    linarith
  have hprod : mx * c < 2 ^ 34 := lt_of_le_of_lt (mul_le_mul_of_nonneg_right hmxb hc) hb
  have hr := round_near (xor a false) (mx * c) (mul_nonneg hmx hc) hprod
  have hval : (if xor a false = true then -(mx * c) else mx * c) = (F64.finite a mx).toRat * c := by
    cases a <;> simp [F64.toRat]
  rw [hval] at hr
  show Near (F64.mul (F64.finite a mx) (F64.finite false c)) (ex * c) (dx * c + 1 / 1048576)
  unfold F64.mul
  refine ⟨hr.1, ?_⟩
  have h1 : (F64.round (xor a false) (mx * c)).toRat - ex * c =
      ((F64.round (xor a false) (mx * c)).toRat - (F64.finite a mx).toRat * c) +
        ((F64.finite a mx).toRat - ex) * c := by ring
  rw [h1]
  have h2 : |((F64.finite a mx).toRat - ex) * c| ≤ dx * c := by
    rw [abs_mul, abs_of_nonneg hc]
    exact mul_le_mul_of_nonneg_right hdx hc
  have := abs_add ((F64.round (xor a false) (mx * c)).toRat - (F64.finite a mx).toRat * c)
    (((F64.finite a mx).toRat - ex) * c)
  linarith [hr.2]

theorem div_const_near (x : F64) (ex dx c : ℚ) (hx : Near x ex dx) (hc : 0 < c)
    (hb : (|ex| + dx) / c < 2 ^ 34) :
    Near (x / F64.finite false c) (ex / c) (dx / c + 1 / 1048576) := by
  obtain ⟨a, mx, rfl, hmx⟩ := near_finite x ex dx hx
  obtain ⟨-, hdx⟩ := hx
  have hmag : mx = |(F64.finite a mx).toRat| := by
    cases a <;> simp [F64.toRat, abs_of_nonneg hmx]
  have hmxb : mx ≤ |ex| + dx := by
    rw [hmag]
    have := abs_sub_abs_le_abs_sub ((F64.finite a mx).toRat) ex
    linarith
  have hquot : mx / c < 2 ^ 34 := lt_of_le_of_lt (div_le_div_of_nonneg_right hmxb hc.le) hb
  have hr := round_near (xor a false) (mx / c) (div_nonneg hmx hc.le) hquot
  have hval : (if xor a false = true then -(mx / c) else mx / c) = (F64.finite a mx).toRat / c := by
    cases a <;> simp [F64.toRat, neg_div]
  rw [hval] at hr
  show Near (F64.div (F64.finite a mx) (F64.finite false c)) (ex / c) (dx / c + 1 / 1048576)
  unfold F64.div
  simp only [if_neg (ne_of_gt hc)]
  refine ⟨hr.1, ?_⟩
  have h1 : (F64.round (xor a false) (mx / c)).toRat - ex / c =
      ((F64.round (xor a false) (mx / c)).toRat - (F64.finite a mx).toRat / c) +
        ((F64.finite a mx).toRat - ex) / c := by ring
  rw [h1]
  have h2 : |((F64.finite a mx).toRat - ex) / c| ≤ dx / c := by
    rw [abs_div, abs_of_pos hc]
    exact div_le_div_of_nonneg_right hdx hc.le
  have := abs_add ((F64.round (xor a false) (mx / c)).toRat - (F64.finite a mx).toRat / c)
    (((F64.finite a mx).toRat - ex) / c)
  linarith [hr.2]

/-! ## The two legs of a conversion -/

theorem const273_15_eq : const273_15 = F64.finite false kelvinOffset := by decide!

theorem near_const273_15 : Near const273_15 kelvinOffset 0 := by
  rw [const273_15_eq]
  exact near_const _ (by unfold kelvinOffset; norm_num)

theorem kelvinOffset_bounds : 273 < kelvinOffset ∧ kelvinOffset < 274 := by
  unfold kelvinOffset
  constructor <;> norm_num

/-- The first leg on a finite value of moderate size. -/
theorem celsiusOf_near (v : F64) (unitA unitB : String) (e d : ℚ) (hv : Near v e d)
    (he : |e| ≤ 1900000000) (hd : d ≤ 1) :
    Near (celsiusOf { Temp := v, FromUnit := unitA, ToUnit := unitB })
      (exactToCelsius kelvinOffset unitA e) (d + 3 / 1048576) := by
  have hd0 : 0 ≤ d := le_trans (abs_nonneg _) hv.2
  obtain ⟨he1, he2⟩ := abs_le.mp he
  obtain ⟨hk1, hk2⟩ := kelvinOffset_bounds
  unfold celsiusOf exactToCelsius
  simp only
  by_cases hF : unitA = "F"
  · rw [if_pos hF, if_pos hF]
    have h1 := sub_near v const32 e 32 d 0 hv (near_const 32 (by norm_num)) (by
      have : |e - 32| ≤ 1900000032 := abs_le.mpr ⟨by linarith, by linarith⟩
      norm_num
      linarith)
    have h1b : |e - 32| ≤ 1900000032 := abs_le.mpr ⟨by linarith, by linarith⟩
    have h2 := mul_const_near (v - const32) (e - 32) (d + 0 + 1 / 1048576) 5 h1 (by norm_num) (by
      norm_num
      linarith)
    have h2b : |(e - 32) * 5| ≤ 9500000160 := abs_le.mpr ⟨by linarith, by linarith⟩
    have h3 := div_const_near ((v - const32) * F64.finite false 5) ((e - 32) * 5)
      ((d + 0 + 1 / 1048576) * 5 + 1 / 1048576) 9 h2 (by norm_num) (by
      norm_num
      linarith)
    exact near_mono _ _ _ _ h3 (by linarith)
  · rw [if_neg hF, if_neg hF]
    by_cases hK : unitA = "K"
    · rw [if_pos hK, if_pos hK]
      have h1 := sub_near v const273_15 e kelvinOffset d 0 hv near_const273_15 (by
        have : |e - kelvinOffset| ≤ 1900000274 := abs_le.mpr ⟨by linarith, by linarith⟩
        norm_num
        linarith)
      exact near_mono _ _ _ _ h1 (by linarith)
    · rw [if_neg hK, if_neg hK]
      exact near_mono _ _ _ _ hv (by linarith)

/-- The second leg on a finite value of moderate size. -/
theorem target_near (c : F64) (unitB : String) (e d : ℚ) (hc : Near c e d)
    (he : |e| ≤ 1900000000) (hd : d ≤ 1) :
    Near (if unitB = "F" then c * const9 / const5 + const32
        else if unitB = "K" then c + const273_15 else c)
      (exactToTarget kelvinOffset unitB e) (9 / 5 * d + 3 / 1048576) := by
  have hd0 : 0 ≤ d := le_trans (abs_nonneg _) hc.2
  obtain ⟨he1, he2⟩ := abs_le.mp he
  obtain ⟨hk1, hk2⟩ := kelvinOffset_bounds
  unfold exactToTarget
  by_cases hF : unitB = "F"
  · rw [if_pos hF, if_pos hF]
    have h1 := mul_const_near c e d 9 hc (by norm_num) (by
      norm_num
      linarith)
    have h1b : |e * 9| ≤ 17100000000 := abs_le.mpr ⟨by linarith, by linarith⟩
    have h2 := div_const_near (c * F64.finite false 9) (e * 9) (d * 9 + 1 / 1048576) 5 h1
      (by norm_num) (by
      norm_num
      linarith)
    have h2b : |e * 9 / 5| ≤ 3420000000 := abs_le.mpr ⟨by linarith, by linarith⟩
    have h3 := add_near (c * F64.finite false 9 / F64.finite false 5) const32 (e * 9 / 5) 32
      ((d * 9 + 1 / 1048576) / 5 + 1 / 1048576) 0 h2 (near_const 32 (by norm_num)) (by
      have : |e * 9 / 5 + 32| ≤ 3420000032 := abs_le.mpr ⟨by linarith, by linarith⟩
      norm_num
      linarith)
    exact near_mono _ _ _ _ h3 (by linarith)
  · rw [if_neg hF, if_neg hF]
    by_cases hK : unitB = "K"
    · rw [if_pos hK, if_pos hK]
      have h1 := add_near c const273_15 e kelvinOffset d 0 hc near_const273_15 (by
        have : |e + kelvinOffset| ≤ 1900000274 := abs_le.mpr ⟨by linarith, by linarith⟩
        norm_num
        linarith)
      exact near_mono _ _ _ _ h1 (by linarith)
    · rw [if_neg hK, if_neg hK]
      exact near_mono _ _ _ _ hc (by linarith)

/-- One conversion on a finite value of moderate size. -/
theorem convert_near (v : F64) (unitA unitB : String) (e d : ℚ) (hv : Near v e d)
    (he : |e| ≤ 1850000000) (hd : d ≤ 1 / 8) :
    Near (convert v unitA unitB)
      (exactToTarget kelvinOffset unitB (exactToCelsius kelvinOffset unitA e))
      (9 / 5 * d + 9 / 1048576) := by
  have hd0 : 0 ≤ d := le_trans (abs_nonneg _) hv.2
  obtain ⟨he1, he2⟩ := abs_le.mp he
  obtain ⟨hk1, hk2⟩ := kelvinOffset_bounds
  have h1 := celsiusOf_near v unitA unitB e d hv (by linarith) (by linarith)
  have hb : |exactToCelsius kelvinOffset unitA e| ≤ 1900000000 := by
    unfold exactToCelsius
    split_ifs <;> exact abs_le.mpr ⟨by linarith, by linarith⟩
  have h2 := target_near (celsiusOf { Temp := v, FromUnit := unitA, ToUnit := unitB }) unitB
    (exactToCelsius kelvinOffset unitA e) (d + 3 / 1048576) h1 hb (by linarith)
  have h3 : convert v unitA unitB =
      (if unitB = "F" then
        celsiusOf { Temp := v, FromUnit := unitA, ToUnit := unitB } * const9 / const5 + const32
      else if unitB = "K" then
        celsiusOf { Temp := v, FromUnit := unitA, ToUnit := unitB } + const273_15
      else celsiusOf { Temp := v, FromUnit := unitA, ToUnit := unitB }) := rfl
  rw [h3]
  exact near_mono _ _ _ _ h2 (by linarith)

theorem exact_round_trip (k : ℚ) (unitA unitB : String) (v : ℚ) :
    exactToTarget k unitA (exactToCelsius k unitB
      (exactToTarget k unitB (exactToCelsius k unitA v))) = v := by
  unfold exactToTarget exactToCelsius
  split_ifs <;> ring

/-! ## The printed value -/

theorem toCelsius_eq (unit : String) (v : ℚ) :
    toCelsius unit v = exactToCelsius (27315 / 100) unit v := by
  unfold toCelsius exactToCelsius
  split
  · simp
  · simp
  · rename_i h1 h2
    rw [if_neg (fun h => h1 h), if_neg (fun h => h2 h)]

theorem toTarget_eq (unit : String) (c : ℚ) :
    toTarget unit c = exactToTarget (27315 / 100) unit c := by
  unfold toTarget exactToTarget
  split
  · simp
  · simp
  · rename_i h1 h2
    rw [if_neg (fun h => h1 h), if_neg (fun h => h2 h)]

/-- The `float64` constant `273.15` is within `10 ^ -13` of 273.15. -/
theorem kelvinOffset_close : |kelvinOffset - 27315 / 100| ≤ 1 / 10 ^ 13 := by
  unfold kelvinOffset
  rw [abs_le]
  constructor <;> norm_num

/-- Replacing 273.15 by the `float64` constant moves a conversion by at most `10 ^ -12`. -/
theorem exact_offset_close (unitA unitB : String) (v : ℚ) :
    |exactToTarget kelvinOffset unitB (exactToCelsius kelvinOffset unitA v) -
      toTarget unitB (toCelsius unitA v)| ≤ 1 / 10 ^ 12 := by
  obtain ⟨h1, h2⟩ := abs_le.mp kelvinOffset_close
  rw [toTarget_eq, toCelsius_eq]
  unfold exactToTarget exactToCelsius
  norm_num at h1 h2 ⊢
  split_ifs <;> exact abs_le.mpr ⟨by linarith, by linarith⟩

theorem near_shift (x : F64) (e e' d d' : ℚ) (h : Near x e d) (he : |e - e'| ≤ d') :
    Near x e' (d + d') := by
  refine ⟨h.1, ?_⟩
  have h1 : x.toRat - e' = (x.toRat - e) + (e - e') := by ring
  rw [h1]
  exact le_trans (abs_add _ _) (add_le_add h.2 he)

theorem tenths_near (mag : ℚ) (h : 0 ≤ mag) : |(F64.tenths mag : ℚ) / 10 - mag| ≤ 1 / 20 := by
  have hn := roundHalfEven_nonneg (mag * 10) (by linarith)
  have he := roundHalfEven_err (mag * 10)
  have hc : ((F64.tenths mag : ℕ) : ℚ) = (F64.roundHalfEven (mag * 10) : ℚ) := by
    unfold F64.tenths
    have := Int.toNat_of_nonneg hn
    exact_mod_cast this
  rw [hc]
  obtain ⟨h1, h2⟩ := abs_le.mp he
  exact abs_le.mpr ⟨by linarith, by linarith⟩

/-- The printed number is within a twentieth of the value. -/
theorem printed_near (x : F64) (h : x.isFinite = true) : |x.printed - x.toRat| ≤ 1 / 20 := by
  cases x with
  | finite a m =>
    have hm : 0 ≤ m := by simpa [F64.isFinite] using h
    have ht := tenths_near m hm
    cases a with
    | false => simpa [F64.printed, F64.toRat] using ht
    | true =>
      simp only [F64.printed, F64.toRat, if_true]
      have h1 : -((F64.tenths m : ℚ) / 10) - -m = -((F64.tenths m : ℚ) / 10 - m) := by ring
      rw [h1, abs_neg]
      exact ht
  | inf a => simp [F64.isFinite] at h
  | nan => simp [F64.isFinite] at h

/-- The text of `formatOneDecimal` is a sign, a whole part and one digit, and
`printed` is the number these denote. -/
theorem formatOneDecimal_printed (x : F64) (h : x.isFinite = true) :
    ∃ (neg : Bool) (whole digit : Nat), digit < 10 ∧
      x.formatOneDecimal =
        (if neg then "-" else "") ++ toString whole ++ "." ++ toString digit ∧
      x.printed = (if neg then -1 else 1) * ((whole : ℚ) + (digit : ℚ) / 10) := by
  cases x with
  | finite a m =>
    refine ⟨a, F64.tenths m / 10, F64.tenths m % 10, Nat.mod_lt _ (by norm_num), rfl, ?_⟩
    have hsplit : (F64.tenths m : ℚ) =
        10 * ((F64.tenths m / 10 : ℕ) : ℚ) + ((F64.tenths m % 10 : ℕ) : ℚ) := by
      exact_mod_cast (Nat.div_add_mod (F64.tenths m) 10).symm
    cases a with
    | false =>
      simp only [F64.printed]
      rw [hsplit]
      simp
      ring
    | true =>
      simp only [F64.printed, if_true]
      rw [hsplit]
      ring
  | inf a => simp [F64.isFinite] at h
  | nan => simp [F64.isFinite] at h

/-- Reading the printed text back gives a value within a twentieth, and one
rounding, of the value printed. -/
theorem reread_near (x : F64) (e d : ℚ) (hx : Near x e d) (he : |e| ≤ 1850000000)
    (hd : d ≤ 1 / 8) : Near x.reread e (d + (1 / 20 + 1 / 1048576)) := by
  obtain ⟨a, m, rfl, hm⟩ := near_finite x e d hx
  have hp := printed_near (F64.finite a m) hx.1
  have ht := tenths_near m hm
  have hmag : m = |(F64.finite a m).toRat| := by
    cases a <;> simp [F64.toRat, abs_of_nonneg hm]
  have hmb : m ≤ |e| + d := by
    rw [hmag]
    have := abs_sub_abs_le_abs_sub ((F64.finite a m).toRat) e
    linarith [hx.2]
  have ht0 : (0 : ℚ) ≤ (F64.tenths m : ℚ) / 10 := by positivity
  have htb : (F64.tenths m : ℚ) / 10 < 2 ^ 34 := by
    have := (abs_le.mp ht).2
    norm_num
    linarith
  have hr := round_near a ((F64.tenths m : ℚ) / 10) ht0 htb
  have hr' : Near (F64.finite a m).reread (F64.finite a m).printed (1 / 1048576) := hr
  have h2 := near_shift _ _ _ _ _ hr' hp
  have h3 := near_shift _ _ _ _ _ h2 hx.2
  exact near_mono _ _ _ _ h3 (by linarith)

/-! ## Claims -/

/-- C1 (counterexample): with the readings 9223372036854775807 and -1 the
difference `tempA - tempB` is positive, yet `CompareWeather` reports "cooler"
with the printed difference -9223372036854775808, not "warmer" with
`|tempA - tempB|`. -/
theorem CompareWeather_wraps_difference :
    sscanfInt "9223372036854775807" - sscanfInt "-1" > 0 ∧
    CompareWeather (fetchPair "9223372036854775807" "-1") ⟨"A", "B"⟩ =
      Outcome.ok (compareText "A" "9223372036854775807" "Sunny" "B" "-1" "Sunny"
        "cooler" (-9223372036854775808)) ∧
    CompareWeather (fetchPair "9223372036854775807" "-1") ⟨"A", "B"⟩ ≠
      Outcome.ok (compareText "A" "9223372036854775807" "Sunny" "B" "-1" "Sunny"
        "warmer" |sscanfInt "9223372036854775807" - sscanfInt "-1"|) := by
  decide

/-- C1 (amended): when both documents carry a current-condition record with a
description and the difference of the two integer readings `tempA - tempB` is
smaller than `2 ^ 63` in absolute value, `CompareWeather` reports "warmer" with
magnitude `tempA - tempB` if the difference is positive, "cooler" with magnitude
`|tempA - tempB|` if it is negative, and "the same temperature as" with
magnitude 0 if it is zero; in every case the magnitude is `|tempA - tempB|`. -/
theorem CompareWeather_reports_difference (fetch : Fetcher) (input : CompareInput)
    (data1 data2 : WeatherData) (c1 c2 : CurrentEntry) (d1 d2 : DescEntry)
    (hf1 : fetch input.Location1 = .ok data1) (hf2 : fetch input.Location2 = .ok data2)
    (hc1 : data1.CurrentCondition.head? = some c1) (hc2 : data2.CurrentCondition.head? = some c2)
    (hd1 : c1.WeatherDesc.head? = some d1) (hd2 : c2.WeatherDesc.head? = some d2)
    (hsmall : |sscanfInt c1.TempC - sscanfInt c2.TempC| < 2 ^ 63) :
    (sscanfInt c1.TempC - sscanfInt c2.TempC > 0 →
      CompareWeather fetch input =
        Outcome.ok (compareText input.Location1 c1.TempC d1.Value input.Location2 c2.TempC
          d2.Value "warmer" (sscanfInt c1.TempC - sscanfInt c2.TempC))) ∧
    (sscanfInt c1.TempC - sscanfInt c2.TempC < 0 →
      CompareWeather fetch input =
        Outcome.ok (compareText input.Location1 c1.TempC d1.Value input.Location2 c2.TempC
          d2.Value "cooler" |sscanfInt c1.TempC - sscanfInt c2.TempC|)) ∧
    (sscanfInt c1.TempC - sscanfInt c2.TempC = 0 →
      CompareWeather fetch input =
        Outcome.ok (compareText input.Location1 c1.TempC d1.Value input.Location2 c2.TempC
          d2.Value "the same temperature as" 0)) ∧
    ∃ comparison, CompareWeather fetch input =
      Outcome.ok (compareText input.Location1 c1.TempC d1.Value input.Location2 c2.TempC
        d2.Value comparison |sscanfInt c1.TempC - sscanfInt c2.TempC|) := by
  rw [CompareWeather_eq fetch input data1 data2 c1 c2 d1 d2 hf1 hf2 hc1 hc2 hd1 hd2,
    compareTemps_of_small _ _ hsmall]
  refine ⟨?_, ?_, ?_, ⟨_, rfl⟩⟩
  · intro h
    simp only [h, if_true, abs_of_pos h]
  · intro h
    have h1 : ¬ sscanfInt c1.TempC - sscanfInt c2.TempC > 0 := by omega
    simp only [h, h1, if_true, if_false]
  · intro h
    rw [h]
    rfl

/-- C1 (witness): readings 25 and 15 give "warmer" with magnitude 10. -/
theorem CompareWeather_reports_difference_witness :
    CompareWeather (fetchPair "25" "15") ⟨"A", "B"⟩ =
      Outcome.ok (compareText "A" "25" "Sunny" "B" "15" "Sunny" "warmer" 10) :=
  (CompareWeather_reports_difference (fetchPair "25" "15") ⟨"A", "B"⟩
    { CurrentCondition := [sampleCurrent "25"], Weather := [] }
    { CurrentCondition := [sampleCurrent "15"], Weather := [] }
    (sampleCurrent "25") (sampleCurrent "15") ⟨"Sunny"⟩ ⟨"Sunny"⟩
    rfl rfl (by decide) (by decide) (by decide) (by decide) (by decide)).1
    (by decide)

/-- C2 (counterexample): for a day whose two hourly chances are
9223372036854775807 and 1 the truncated arithmetic mean is 4611686018427387904,
but `CheckRainProbability` reports -4611686018427387904. -/
theorem CheckRainProbability_sum_wraps :
    truncate (arithmeticMean (rainChances (sampleDay ["9223372036854775807", "1"]))) =
      4611686018427387904 ∧
    CheckRainProbability
        (fetchConst { CurrentCondition := [], Weather := [sampleDay ["9223372036854775807", "1"]] })
        ⟨"A"⟩ =
      Outcome.ok (rainText "Low" "A" (-4611686018427387904)
        "You should be fine without an umbrella") := by
  refine ⟨?_, by rfl⟩
  have h : rainChances (sampleDay ["9223372036854775807", "1"]) = [9223372036854775807, 1] := by
    decide
  rw [h]
  have h2 : arithmeticMean [9223372036854775807, 1] =
      ((9223372036854775808 : Int) : ℚ) / ((2 : Nat) : ℚ) := by
    unfold arithmeticMean
    norm_num
  rw [h2, truncate_div _ _ (by decide)]
  decide

/-- C2 (amended): when the fetched document has a first day and the sum of the
integer rain chances of its hourly records lies in the 64-bit range, the
percentage `CheckRainProbability` reports is the arithmetic mean of those
chances truncated toward zero (the sum divided by the count, rounded toward
zero); and whatever the chances, it is 0 when the day has no hourly record. -/
theorem CheckRainProbability_reports_truncated_mean (fetch : Fetcher) (input : LocationInput)
    (data : WeatherData) (today : DayEntry) (hf : fetch input.Location = .ok data)
    (hw : data.Weather.head? = some today) :
    ∃ (percentage : Int) (level advice : String),
      CheckRainProbability fetch input =
        Outcome.ok (rainText level input.Location percentage advice) ∧
      (today.Hourly = [] → percentage = 0) ∧
      (today.Hourly ≠ [] → -(2 ^ 63) ≤ (rainChances today).sum → (rainChances today).sum < 2 ^ 63 →
        percentage = truncate (arithmeticMean (rainChances today)) ∧
        percentage = Int.tdiv (rainChances today).sum ((rainChances today).length : Int)) := by
  refine ⟨avgChance today, (rainLevel (avgChance today)).1, (rainLevel (avgChance today)).2,
    CheckRainProbability_eq fetch input data today hf hw, ?_, ?_⟩
  · intro he
    simp [avgChance, he]
  · intro hne hlo hhi
    have hlen : 0 < today.Hourly.length := List.length_pos.mpr hne
    have hlen' : (rainChances today).length = today.Hourly.length := by simp [rainChances]
    have htot : rainTotal today.Hourly = (rainChances today).sum := by
      rw [rainTotal_eq_wrap_sum]
      exact wrap64_of_range _ hlo hhi
    have havg : avgChance today =
        Int.tdiv (rainChances today).sum ((rainChances today).length : Int) := by
      unfold avgChance
      simp only [hlen, if_true, htot, hlen']
    refine ⟨?_, havg⟩
    rw [havg]
    unfold arithmeticMean
    rw [truncate_div _ _ (by omega)]

/-- C2 (witness): hourly chances 80 and 90 are reported as 85 percent. -/
theorem CheckRainProbability_reports_truncated_mean_witness :
    ∃ (percentage : Int) (level advice : String),
      CheckRainProbability (fetchConst { CurrentCondition := [], Weather := [sampleDay ["80", "90"]] })
          ⟨"A"⟩ =
        Outcome.ok (rainText level "A" percentage advice) ∧
      ((sampleDay ["80", "90"]).Hourly = [] → percentage = 0) ∧
      ((sampleDay ["80", "90"]).Hourly ≠ [] →
        -(2 ^ 63) ≤ (rainChances (sampleDay ["80", "90"])).sum →
        (rainChances (sampleDay ["80", "90"])).sum < 2 ^ 63 →
        percentage = truncate (arithmeticMean (rainChances (sampleDay ["80", "90"]))) ∧
        percentage = Int.tdiv (rainChances (sampleDay ["80", "90"])).sum
          ((rainChances (sampleDay ["80", "90"])).length : Int)) :=
  CheckRainProbability_reports_truncated_mean
    (fetchConst { CurrentCondition := [], Weather := [sampleDay ["80", "90"]] }) ⟨"A"⟩
    { CurrentCondition := [], Weather := [sampleDay ["80", "90"]] } (sampleDay ["80", "90"])
    rfl (by decide)

/-- C3 (counterexample): for a day whose two hourly chances are 70 and 71 the
arithmetic mean is above 70, yet `CheckRainProbability` reports the band
"Moderate" with the advice to maybe bring an umbrella. -/
theorem CheckRainProbability_band_uses_truncated_mean :
    arithmeticMean (rainChances (sampleDay ["70", "71"])) > 70 ∧
    CheckRainProbability
        (fetchConst { CurrentCondition := [], Weather := [sampleDay ["70", "71"]] }) ⟨"A"⟩ =
      Outcome.ok (rainText "Moderate" "A" 70 "Maybe bring an umbrella") := by
  refine ⟨?_, by decide⟩
  have h : rainChances (sampleDay ["70", "71"]) = [70, 71] := by decide
  rw [h]
  unfold arithmeticMean
  norm_num

/-- C3 (amended): when the fetched document has a first day, `CheckRainProbability`
classifies by the integer percentage `p` it reports, not by the mean before
truncation: `p` is 0 for a day without hourly records and otherwise the 64-bit
sum of the day-0 hourly chances divided by their count and rounded toward zero,
which is the truncated arithmetic mean whenever the sum lies in the 64-bit
range; the band is "High" with the advice to bring an umbrella exactly when
`p > 70`, "Moderate" with the advice to maybe bring one exactly when
`40 < p ≤ 70`, and "Low" with the advice that it is fine without exactly when
`p ≤ 40`. -/
theorem CheckRainProbability_bands (fetch : Fetcher) (input : LocationInput)
    (data : WeatherData) (today : DayEntry) (hf : fetch input.Location = .ok data)
    (hw : data.Weather.head? = some today) :
    ∃ (p : Int) (level advice : String),
      CheckRainProbability fetch input =
        Outcome.ok (rainText level input.Location p advice) ∧
      ((level = "High" ∧ advice = "Bring an umbrella!") ↔ p > 70) ∧
      ((level = "Moderate" ∧ advice = "Maybe bring an umbrella") ↔ (40 < p ∧ p ≤ 70)) ∧
      ((level = "Low" ∧ advice = "You should be fine without an umbrella") ↔ p ≤ 40) ∧
      (today.Hourly = [] → p = 0) ∧
      (today.Hourly ≠ [] →
        p = Int.tdiv (wrap64 (rainChances today).sum) ((rainChances today).length : Int)) ∧
      (today.Hourly ≠ [] → -(2 ^ 63) ≤ (rainChances today).sum →
        (rainChances today).sum < 2 ^ 63 →
        p = truncate (arithmeticMean (rainChances today))) := by
  have hlen' : (rainChances today).length = today.Hourly.length := by simp [rainChances]
  have havg : today.Hourly ≠ [] → avgChance today =
      Int.tdiv (wrap64 (rainChances today).sum) ((rainChances today).length : Int) := by
    intro hne
    have hlen : 0 < today.Hourly.length := List.length_pos.mpr hne
    have htot : rainTotal today.Hourly = wrap64 (rainChances today).sum :=
      rainTotal_eq_wrap_sum today.Hourly
    unfold avgChance
    simp only [hlen, if_true, htot, hlen']
  refine ⟨avgChance today, (rainLevel (avgChance today)).1, (rainLevel (avgChance today)).2,
    CheckRainProbability_eq fetch input data today hf hw, ?_, ?_, ?_, ?_, havg, ?_⟩
  · unfold rainLevel
    by_cases h70 : avgChance today > 70
    · simp [h70]
    · by_cases h40 : avgChance today > 40
      · simp [h70, h40]
      · simp [h70, h40]
  · unfold rainLevel
    by_cases h70 : avgChance today > 70
    · have h70' : ¬ avgChance today ≤ 70 := by omega
      simp [h70, h70']
    · by_cases h40 : avgChance today > 40
      · have h70' : avgChance today ≤ 70 := by omega
        simp [h70, h40, h70']
      · simp [h70, h40]
  · unfold rainLevel
    by_cases h70 : avgChance today > 70
    · have h40' : ¬ avgChance today ≤ 40 := by omega
      simp [h70, h40']
    · by_cases h40 : avgChance today > 40
      · have h40' : ¬ avgChance today ≤ 40 := by omega
        simp [h70, h40, h40']
      · have h40' : avgChance today ≤ 40 := by omega
        simp [h70, h40, h40']
  · intro he
    simp [avgChance, he]
  · intro hne hlo hhi
    have hlen : 0 < today.Hourly.length := List.length_pos.mpr hne
    rw [havg hne, wrap64_of_range _ hlo hhi]
    unfold arithmeticMean
    rw [truncate_div _ _ (by omega)]

/-- C3 (witness): hourly chances 80 and 90 give 85 percent and the band "High". -/
theorem CheckRainProbability_bands_witness :
    CheckRainProbability
        (fetchConst { CurrentCondition := [], Weather := [sampleDay ["80", "90"]] }) ⟨"A"⟩ =
      Outcome.ok (rainText "High" "A" 85 "Bring an umbrella!") := by
  obtain ⟨p, level, advice, h1, h2, -, -, -, h6, -⟩ :=
    CheckRainProbability_bands
      (fetchConst { CurrentCondition := [], Weather := [sampleDay ["80", "90"]] }) ⟨"A"⟩
      { CurrentCondition := [], Weather := [sampleDay ["80", "90"]] } (sampleDay ["80", "90"])
      rfl (by decide)
  have hp : p = 85 := by
    rw [h6 (by decide)]
    decide
  subst hp
  obtain ⟨hl, ha⟩ := h2.mpr (by decide)
  rw [h1, hl, ha]

/-- C4 (failing input): a request for -1 days is neither defaulted nor capped;
the day count in use is -1, outside [1,3], and on a document of four days
`GetForecast` emits the header and no day-block. -/
theorem GetForecast_negative_days :
    effectiveDays (-1) = -1 ∧
    maxDays (effectiveDays (-1)) sampleForecast.Weather = -1 ∧
    GetForecast (fetchConst sampleForecast) ⟨"A", -1⟩ = Outcome.ok "Forecast for A:\n\n" := by
  decide

/-- C5 (failing input): a request for 0 days, 3 in effect, on a document of two
days whose second day has five hourly records, the one at index 4 without a
description: the two day-blocks `min 3 2` are not emitted, `GetForecast` panics
on `WeatherDesc[0]` in the pass for the second day. -/
theorem GetForecast_panics_before_second_block :
    min (requestedCount 0) forecastWithGap.Weather.length = 2 ∧
    middayDescribed dayWithoutMiddayDesc = false ∧
    GetForecast (fetchConst forecastWithGap) ⟨"A", 0⟩ = Outcome.indexOutOfRange 0 0 := by
  decide

/-- C6 (counterexample): the `float64` value `2 ^ 1023` converted from C to F
is `+Inf`, because `celsius*9` overflows, although the formula `c×9/5+32`
gives a number below `2 ^ 1024`; 1 converted from F to C is a `float64` that
differs from the value `(1-32)×5/9` of the formula; and 0 converted from C to K
is printed as 273.1. -/
theorem ConvertTemperature_differs_from_formula :
    F64.ofRat (2 ^ 1023) = F64.finite false (2 ^ 1023) ∧
    convertedValue { Temp := F64.finite false (2 ^ 1023), FromUnit := "C", ToUnit := "F" } =
      F64.inf false ∧
    toTarget "F" (toCelsius "C" (2 ^ 1023)) < 2 ^ 1024 ∧
    (convertedValue { Temp := F64.finite false 1, FromUnit := "F", ToUnit := "C" }).toRat ≠
      toTarget "C" (toCelsius "F" 1) ∧
    ConvertTemperature { Temp := F64.finite false 0, FromUnit := "C", ToUnit := "K" } =
      Outcome.ok "0.0°C = 273.1°K" := by
  decide!

/-- C6 (amended): for every value `v` and every pair of unit strings
`ConvertTemperature` returns a result, never an error; when `v` is finite with
`|v| ≤ 10 ^ 9` its converted value is a finite `float64` within `10 ^ -5` of
`toTarget toUnit (toCelsius fromUnit v)` evaluated exactly, `toCelsius` being
`(v-32)×5/9` for "F", `v-273.15` for "K" and `v` for any other string, and
`toTarget` being `c×9/5+32` for "F", `c+273.15` for "K" and `c` for any other
string; a unit other than "F" and "K" is treated as Celsius on both legs; and
on the converted value the reference points hold: 0 C→F = 32, -40 C→F = -40,
100 C→F = 212, 212 F→C = 100, 32 F→C = 0, 273.15 K→C = 0, and 0 C→K is the
`float64` nearest to 273.15. -/
theorem ConvertTemperature_formulas (v : F64) (fromUnit toUnit : String) :
    ConvertTemperature { Temp := v, FromUnit := fromUnit, ToUnit := toUnit } =
      Outcome.ok (F64.formatOneDecimal v ++ "°" ++ fromUnit ++ " = " ++
        F64.formatOneDecimal (convert v fromUnit toUnit) ++ "°" ++ toUnit) ∧
    (v.isFinite = true → |v.toRat| ≤ 10 ^ 9 →
      (convert v fromUnit toUnit).isFinite = true ∧
      |(convert v fromUnit toUnit).toRat - toTarget toUnit (toCelsius fromUnit v.toRat)| ≤
        1 / 100000) ∧
    (fromUnit ≠ "F" → fromUnit ≠ "K" → toUnit ≠ "F" → toUnit ≠ "K" →
      convert v fromUnit toUnit = v) ∧
    (fromUnit ≠ "F" → fromUnit ≠ "K" → toCelsius fromUnit v.toRat = v.toRat) ∧
    (toUnit ≠ "F" → toUnit ≠ "K" →
      toTarget toUnit (toCelsius fromUnit v.toRat) = toCelsius fromUnit v.toRat) ∧
    convert (F64.finite false 0) "C" "F" = F64.finite false 32 ∧
    convert (F64.finite true 40) "C" "F" = F64.finite true 40 ∧
    convert (F64.finite false 100) "C" "F" = F64.finite false 212 ∧
    convert (F64.finite false 212) "F" "C" = F64.finite false 100 ∧
    convert (F64.finite false 32) "F" "C" = F64.finite false 0 ∧
    convert (F64.ofRat (27315 / 100)) "K" "C" = F64.finite false 0 ∧
    convert (F64.finite false 0) "C" "K" = F64.ofRat (27315 / 100) ∧
    |(F64.ofRat (27315 / 100)).toRat - 27315 / 100| ≤ 1 / 10 ^ 13 := by
  refine ⟨rfl, ?_, ?_, ?_, ?_, by decide!, by decide!, by decide!, by decide!, by decide!,
    by decide!, by decide!, by decide!⟩
  · intro hfin hv
    obtain ⟨hv1, hv2⟩ := abs_le.mp hv
    have h1 := convert_near v fromUnit toUnit v.toRat 0 (near_self v hfin)
      (abs_le.mpr ⟨by linarith, by linarith⟩) (by norm_num)
    have h2 := near_shift _ _ _ _ _ h1 (exact_offset_close fromUnit toUnit v.toRat)
    exact ⟨h2.1, le_trans h2.2 (by norm_num)⟩
  · intro h1 h2 h3 h4
    unfold convert convertedValue celsiusOf
    simp only [if_neg h1, if_neg h2, if_neg h3, if_neg h4]
  · intro h1 h2
    rw [toCelsius_eq]
    unfold exactToCelsius
    rw [if_neg h1, if_neg h2]
  · intro h1 h2
    rw [toTarget_eq]
    unfold exactToTarget
    rw [if_neg h1, if_neg h2]

/-- C6 (witness): 20 degrees Fahrenheit to Celsius, and 20 degrees in unknown units. -/
theorem ConvertTemperature_formulas_witness :
    ((convert (F64.finite false 20) "F" "C").isFinite = true ∧
      |(convert (F64.finite false 20) "F" "C").toRat -
        toTarget "C" (toCelsius "F" (F64.finite false 20).toRat)| ≤ 1 / 100000) ∧
    convert (F64.finite false 20) "celsius" "X" = F64.finite false 20 :=
  ⟨(ConvertTemperature_formulas (F64.finite false 20) "F" "C").2.1 (by decide) (by decide!),
    (ConvertTemperature_formulas (F64.finite false 20) "celsius" "X").2.2.1
      (by decide) (by decide) (by decide) (by decide)⟩

/-- C7 (counterexample): the reading 50.0918 converted from F to C is printed as
10.1, and 10.1 converted from C back to F is printed as 50.2, which is more than
0.1 away from 50.0918; and the `float64` 36000000000000000 converted from F to
C and, without any printing, back to F is 36000000000000008, which is 8 away. -/
theorem convert_round_trip_exceeds_tolerance :
    ConvertTemperature { Temp := F64.ofRat (500918 / 10000), FromUnit := "F", ToUnit := "C" } =
      Outcome.ok "50.1°F = 10.1°C" ∧
    (convert (F64.ofRat (500918 / 10000)) "F" "C").reread = F64.ofRat (101 / 10) ∧
    ConvertTemperature { Temp := F64.ofRat (101 / 10), FromUnit := "C", ToUnit := "F" } =
      Outcome.ok "10.1°C = 50.2°F" ∧
    (convert (convert (F64.ofRat (500918 / 10000)) "F" "C").reread "C" "F").printed = 502 / 10 ∧
    ¬ |(convert (convert (F64.ofRat (500918 / 10000)) "F" "C").reread "C" "F").printed -
        (F64.ofRat (500918 / 10000)).toRat| ≤ 1 / 10 ∧
    F64.ofRat 36000000000000000 = F64.finite false 36000000000000000 ∧
    convert (convert (F64.finite false 36000000000000000) "F" "C") "C" "F" =
      F64.finite false 36000000000000008 ∧
    ¬ |(convert (convert (F64.finite false 36000000000000000) "F" "C") "C" "F").toRat -
        (F64.finite false 36000000000000000).toRat| ≤ 1 / 10 := by
  decide!

/-- C7 (amended): for every finite value `v` with `|v| ≤ 10 ^ 9` and all units
`unitA`, `unitB` (in particular those in {C, F, K}), converting `v` from `unitA`
to `unitB` and then converting the result that `ConvertTemperature` printed,
read back as a number, from `unitB` to `unitA` prints a decimal number within
0.15 of `v`; and converting the unprinted `float64` result back yields a finite
value within 0.1 of `v`. -/
theorem convert_round_trip (v : F64) (unitA unitB : String) (hfin : v.isFinite = true)
    (hv : |v.toRat| ≤ 10 ^ 9) :
    ConvertTemperature { Temp := v, FromUnit := unitA, ToUnit := unitB } =
      Outcome.ok (F64.formatOneDecimal v ++ "°" ++ unitA ++ " = " ++
        F64.formatOneDecimal (convert v unitA unitB) ++ "°" ++ unitB) ∧
    ConvertTemperature
        { Temp := (convert v unitA unitB).reread, FromUnit := unitB, ToUnit := unitA } =
      Outcome.ok (F64.formatOneDecimal (convert v unitA unitB).reread ++ "°" ++ unitB ++ " = " ++
        F64.formatOneDecimal (convert (convert v unitA unitB).reread unitB unitA) ++ "°" ++
        unitA) ∧
    (convert (convert v unitA unitB).reread unitB unitA).isFinite = true ∧
    (∃ (neg : Bool) (whole digit : Nat), digit < 10 ∧
      F64.formatOneDecimal (convert (convert v unitA unitB).reread unitB unitA) =
        (if neg then "-" else "") ++ toString whole ++ "." ++ toString digit ∧
      (convert (convert v unitA unitB).reread unitB unitA).printed =
        (if neg then -1 else 1) * ((whole : ℚ) + (digit : ℚ) / 10)) ∧
    |(convert (convert v unitA unitB).reread unitB unitA).printed - v.toRat| ≤ 15 / 100 ∧
    (convert (convert v unitA unitB) unitB unitA).isFinite = true ∧
    |(convert (convert v unitA unitB) unitB unitA).toRat - v.toRat| ≤ 1 / 10 := by
  obtain ⟨hv1, hv2⟩ := abs_le.mp hv
  obtain ⟨hk1, hk2⟩ := kelvinOffset_bounds
  have h1 := convert_near v unitA unitB v.toRat 0 (near_self v hfin)
    (abs_le.mpr ⟨by linarith, by linarith⟩) (by norm_num)
  have hb : |exactToTarget kelvinOffset unitB (exactToCelsius kelvinOffset unitA v.toRat)| ≤
      1850000000 := by
    unfold exactToTarget exactToCelsius
    split_ifs <;> exact abs_le.mpr ⟨by linarith, by linarith⟩
  have h2 := convert_near (convert v unitA unitB) unitB unitA _ _ h1 hb (by norm_num)
  rw [exact_round_trip] at h2
  have h3 := reread_near (convert v unitA unitB) _ _ h1 hb (by norm_num)
  have h4 := convert_near (convert v unitA unitB).reread unitB unitA _ _ h3 hb (by norm_num)
  rw [exact_round_trip] at h4
  have h5 := printed_near _ h4.1
  refine ⟨rfl, rfl, h4.1, formatOneDecimal_printed _ h4.1, ?_, h2.1,
    le_trans h2.2 (by norm_num)⟩
  have h6 : (convert (convert v unitA unitB).reread unitB unitA).printed - v.toRat =
      ((convert (convert v unitA unitB).reread unitB unitA).printed -
        (convert (convert v unitA unitB).reread unitB unitA).toRat) +
      ((convert (convert v unitA unitB).reread unitB unitA).toRat - v.toRat) := by ring
  rw [h6]
  have h7 := abs_add
    ((convert (convert v unitA unitB).reread unitB unitA).printed -
      (convert (convert v unitA unitB).reread unitB unitA).toRat)
    ((convert (convert v unitA unitB).reread unitB unitA).toRat - v.toRat)
  have h8 := h4.2
  norm_num at h8
  linarith

/-- C7 (witness): 100 degrees Celsius to Fahrenheit and back. -/
theorem convert_round_trip_witness :
    (convert (convert (F64.finite false 100) "C" "F").reread "F" "C").isFinite = true ∧
    |(convert (convert (F64.finite false 100) "C" "F").reread "F" "C").printed -
        (F64.finite false 100).toRat| ≤ 15 / 100 :=
  ⟨(convert_round_trip (F64.finite false 100) "C" "F" (by decide) (by decide!)).2.2.1,
    (convert_round_trip (F64.finite false 100) "C" "F" (by decide) (by decide!)).2.2.2.2.1⟩

/-- C8 (counterexample): with the readings 9223372036854775807 and -1, which
differ, `CompareWeather` reports "cooler" in both orders. -/
theorem CompareWeather_same_direction_both_ways :
    sscanfInt "9223372036854775807" ≠ sscanfInt "-1" ∧
    CompareWeather (fetchPair "9223372036854775807" "-1") ⟨"A", "B"⟩ =
      Outcome.ok (compareText "A" "9223372036854775807" "Sunny" "B" "-1" "Sunny"
        "cooler" (-9223372036854775808)) ∧
    CompareWeather (fetchPair "9223372036854775807" "-1") ⟨"B", "A"⟩ =
      Outcome.ok (compareText "B" "-1" "Sunny" "A" "9223372036854775807" "Sunny"
        "cooler" (-9223372036854775808)) := by
  decide

/-- C8 (amended): when both documents carry a current-condition record with a
description and the difference of the two integer readings is neither `2 ^ 63`
nor `-2 ^ 63`, `CompareWeather(A, B)` and `CompareWeather(B, A)` report the same
magnitude; when the readings differ one reports "warmer" and the other
"cooler"; when they are equal both report "the same temperature as" with
magnitude 0. -/
theorem CompareWeather_symmetric (fetch : Fetcher) (locA locB : String)
    (dataA dataB : WeatherData) (cA cB : CurrentEntry) (dA dB : DescEntry)
    (hfA : fetch locA = .ok dataA) (hfB : fetch locB = .ok dataB)
    (hcA : dataA.CurrentCondition.head? = some cA) (hcB : dataB.CurrentCondition.head? = some cB)
    (hdA : cA.WeatherDesc.head? = some dA) (hdB : cB.WeatherDesc.head? = some dB)
    (hne : sscanfInt cA.TempC - sscanfInt cB.TempC ≠ 2 ^ 63)
    (hne2 : sscanfInt cA.TempC - sscanfInt cB.TempC ≠ -(2 ^ 63)) :
    ∃ (wordAB wordBA : String) (magnitude : Int),
      CompareWeather fetch ⟨locA, locB⟩ =
        Outcome.ok (compareText locA cA.TempC dA.Value locB cB.TempC dB.Value wordAB magnitude) ∧
      CompareWeather fetch ⟨locB, locA⟩ =
        Outcome.ok (compareText locB cB.TempC dB.Value locA cA.TempC dA.Value wordBA magnitude) ∧
      (sscanfInt cA.TempC ≠ sscanfInt cB.TempC →
        (wordAB = "warmer" ∧ wordBA = "cooler") ∨ (wordAB = "cooler" ∧ wordBA = "warmer")) ∧
      (sscanfInt cA.TempC = sscanfInt cB.TempC →
        wordAB = "the same temperature as" ∧ wordBA = "the same temperature as" ∧
          magnitude = 0) := by
  have hsw := compareTemps_swap (sscanfInt cA.TempC) (sscanfInt cB.TempC)
    (sscanfInt_range _) (sscanfInt_range _) hne hne2
  refine ⟨(compareTemps (sscanfInt cA.TempC) (sscanfInt cB.TempC)).1,
    (compareTemps (sscanfInt cB.TempC) (sscanfInt cA.TempC)).1,
    (compareTemps (sscanfInt cA.TempC) (sscanfInt cB.TempC)).2, ?_, ?_, hsw.2.1, hsw.2.2⟩
  · exact CompareWeather_eq fetch ⟨locA, locB⟩ dataA dataB cA cB dA dB hfA hfB hcA hcB hdA hdB
  · rw [hsw.1]
    exact CompareWeather_eq fetch ⟨locB, locA⟩ dataB dataA cB cA dB dA hfB hfA hcB hcA hdB hdA

/-- C8 (witness): readings 25 and 15, compared in both orders. -/
theorem CompareWeather_symmetric_witness :
    ∃ (wordAB wordBA : String) (magnitude : Int),
      CompareWeather (fetchPair "25" "15") ⟨"A", "B"⟩ =
        Outcome.ok (compareText "A" "25" "Sunny" "B" "15" "Sunny" wordAB magnitude) ∧
      CompareWeather (fetchPair "25" "15") ⟨"B", "A"⟩ =
        Outcome.ok (compareText "B" "15" "Sunny" "A" "25" "Sunny" wordBA magnitude) ∧
      (sscanfInt "25" ≠ sscanfInt "15" →
        (wordAB = "warmer" ∧ wordBA = "cooler") ∨ (wordAB = "cooler" ∧ wordBA = "warmer")) ∧
      (sscanfInt "25" = sscanfInt "15" →
        wordAB = "the same temperature as" ∧ wordBA = "the same temperature as" ∧
          magnitude = 0) :=
  CompareWeather_symmetric (fetchPair "25" "15") "A" "B"
    { CurrentCondition := [sampleCurrent "25"], Weather := [] }
    { CurrentCondition := [sampleCurrent "15"], Weather := [] }
    (sampleCurrent "25") (sampleCurrent "15") ⟨"Sunny"⟩ ⟨"Sunny"⟩
    rfl rfl (by decide) (by decide) (by decide) (by decide) (by decide)
    (by decide)

/-- C9 (failing input): on a document with no current-condition record
`GetCurrentWeather` and `CompareWeather` (the record missing on the first, the
second, or both sides) panic on the index expression `CurrentCondition[0]`;
none returns an error. -/
theorem handlers_panic_without_current :
    GetCurrentWeather (fetchConst noCurrent) ⟨"A"⟩ = Outcome.indexOutOfRange 0 0 ∧
    CompareWeather (fun location => if location = "A" then .ok noCurrent else .ok sampleForecast)
      ⟨"A", "B"⟩ = Outcome.indexOutOfRange 0 0 ∧
    CompareWeather (fun location => if location = "A" then .ok noCurrent else .ok sampleForecast)
      ⟨"B", "A"⟩ = Outcome.indexOutOfRange 0 0 ∧
    CompareWeather (fetchConst noCurrent) ⟨"A", "B"⟩ = Outcome.indexOutOfRange 0 0 := by
  decide

/-- C10 (failing input): `GetCurrentWeather` on a current-condition record with
an empty description list, and `GetForecast` on a day whose hourly record at
index 4 has an empty description list, panic on the index expression
`WeatherDesc[0]`. -/
theorem handlers_panic_without_description :
    GetCurrentWeather (fetchConst currentWithoutDesc) ⟨"A"⟩ = Outcome.indexOutOfRange 0 0 ∧
    CompareWeather (fetchConst currentWithoutDesc) ⟨"A", "B"⟩ = Outcome.indexOutOfRange 0 0 ∧
    GetForecast (fetchConst middayWithoutDesc) ⟨"A", 1⟩ = Outcome.indexOutOfRange 0 0 := by
  decide

end WeatherMcp
